import Mathlib

/-!
Verification development for the python-lx200 telescope protocol library.

The definitions below are a shallow embedding of the repository's code:
  * `lx200/parser.py`    — the byte-stream framing state machine,
  * `lx200/commands.py`  — the command catalog (patterns, captured fields,
    store paths, fixed store payloads),
  * `lx200/store.py`     — the path-addressed state store,
  * `lx200/responses/responses.py` and `lx200/responses/defaults.py`
    — the response catalog and formatters,
  * the dispatcher loop of `lx200/examples/tcpserver.py`.

Python dictionaries are modelled as association lists (`FieldMap`) whose
update replaces the first occurrence of a key in place, matching CPython's
key-order-preserving `dict.update`.  Python floats that the code ever
builds come from decimal literals captured by the catalog's regexes, so
they are modelled as exact rationals; `str`/`format` on them is modelled
for exact decimals (the only values the code produces and formats).
-/

/-- A Python value as stored in command fields, the store and response
attributes: int, float, str, bool or None.  A float is an exact rational
`num / den` with positive denominator (see the module comment: every float
the library builds is an exact decimal). -/
inductive Value where
  | VInt (n : Int)
  | VFloat (num : Int) (den : Nat)
  | VStr (s : String)
  | VBool (b : Bool)
  | VNone
deriving DecidableEq, Repr

open Value

/-- A Python dict with string keys, as an insertion-ordered association
list. -/
def FieldMap := List (String × Value)
deriving DecidableEq, Repr

/-- Setting one key of a dict: replace the first occurrence in place, else
append (CPython preserves the position of existing keys). -/
def fmSet (m : FieldMap) (k : String) (v : Value) : FieldMap :=
  match m with
  | [] => [(k, v)]
  | (k', v') :: t => if k' = k then (k, v) :: t else (k', v') :: fmSet t k v

/-- `dict.update(data)`: set every key of `data` in order. -/
def fmUpdate (m data : FieldMap) : FieldMap :=
  data.foldl (fun acc kv => fmSet acc kv.1 kv.2) m

/-- Dict lookup. -/
def fmGet (m : FieldMap) (k : String) : Option Value :=
  (m.find? (fun kv => kv.1 = k)).map (·.2)

/-- Captured regex groups: group name to captured text. -/
def Groups := List (String × String)
deriving DecidableEq, Repr

/-- Record a group capture (the last capture of a name wins, as in Python). -/
def gSet (m : Groups) (k : String) (v : String) : Groups :=
  match m with
  | [] => [(k, v)]
  | (k', v') :: t => if k' = k then (k, v) :: t else (k', v') :: gSet t k v

/-- Group lookup (an absent name means the group did not participate in the
match, Python's `None`). -/
def gGet (m : Groups) (k : String) : Option String :=
  (m.find? (fun kv => kv.1 = k)).map (·.2)

/-! ### Python number conversions and string formatting

Only the behaviour actually exercised by the library is modelled: the
converters run on substrings captured by the catalog's regexes (optional
sign or space followed by digits, possibly with one decimal point), and the
format specs are the ones appearing in `responses.py`. -/

/-- Digits of a decimal string as a natural number. -/
def digitsToNat (cs : List Char) : Nat :=
  cs.foldl (fun acc c => acc * 10 + (c.toNat - 48)) 0

/-- Python `int(s)` for the shapes the catalog captures: optional
whitespace, optional `+`/`-` sign, digits.  (On anything else the source
raises `ValueError`; the regexes guarantee that never happens.) -/
def pyInt (s : String) : Int :=
  let cs := s.data.dropWhile (· = ' ')
  match cs with
  | '-' :: t => - (digitsToNat t : Int)
  | '+' :: t => (digitsToNat t : Int)
  | t => (digitsToNat t : Int)

/-- Python `float(s)` for captured decimal literals, as an exact rational
numerator/denominator pair (denominator a power of ten).  Accepts optional
whitespace/sign, integer digits, an optional point and optional fraction
digits. -/
def pyFloat (s : String) : Int × Nat :=
  let cs := s.data.dropWhile (· = ' ')
  let (neg, cs) := match cs with
    | '-' :: t => (true, t)
    | '+' :: t => (false, t)
    | t => (false, t)
  let intPart := cs.takeWhile (· ≠ '.')
  let rest := cs.dropWhile (· ≠ '.')
  let fracPart := match rest with
    | '.' :: t => t
    | _ => []
  let num : Int := (digitsToNat intPart) * 10 ^ fracPart.length + digitsToNat fracPart
  ((if neg then -num else num), 10 ^ fracPart.length)

/-- Left-pad a string with `0` up to `w` characters. -/
def zeroPad (s : String) (w : Nat) : String :=
  if s.length ≥ w then s
  else String.mk (List.replicate (w - s.length) '0') ++ s

/-- Round `num / den` to an integer, ties to even (Python float formatting
rounds the decimal value half-to-even; exact ties between binary floats and
decimals do not arise for the values the library produces). -/
def roundHalfEven (num : Int) (den : Nat) : Int :=
  let f : Int := Int.fdiv num den
  let r : Int := num - f * den
  if 2 * r < (den : Int) then f
  else if (den : Int) < 2 * r then f + 1
  else if Int.emod f 2 = 0 then f else f + 1

/-- Python `format(v, '=+0{w}d')`-style on ints: mandatory sign, digits
zero-padded after the sign to total width `w`. -/
def fmtSignedPadInt (n : Int) (w : Nat) : String :=
  let sign := if n < 0 then "-" else "+"
  sign ++ zeroPad (toString n.natAbs) (w - 1)

/-- Python `format(v, '=0{w}d')` on ints: optional `-` sign, zero padding
between sign and digits to total width `w`. -/
def fmtPadInt (n : Int) (w : Nat) : String :=
  if n < 0 then "-" ++ zeroPad (toString n.natAbs) (w - 1)
  else zeroPad (toString n.natAbs) w

/-- Python `format(v, '=[+]0{w}.{p}f')`: fixed-point with `p` decimals,
half-even rounding, zero padding between the sign and the digits up to
total width `w`; the sign is emitted for negative values and, when
`forceSign` is set, for non-negative ones too. -/
def fmtFixed (num : Int) (den : Nat) (p w : Nat) (forceSign : Bool) : String :=
  let r : Int := roundHalfEven (num * 10 ^ p) den
  let neg : Bool := num < 0
  let sign := if neg then "-" else if forceSign then "+" else ""
  let mag := r.natAbs
  let body :=
    if p = 0 then toString mag
    else toString (mag / 10 ^ p) ++ "." ++ zeroPad (toString (mag % 10 ^ p)) p
  sign ++ zeroPad body (w - sign.length)

/-- Python `str` of a float, for the exact decimals the library produces:
an integral value prints with a single `.0`, otherwise the shortest exact
decimal expansion is printed.  (Non-decimal rationals never reach `str` in
the library; for completeness they print via a 17-digit expansion.) -/
def pyFloatRepr (num : Int) (den : Nat) : String :=
  let sign := if num < 0 then "-" else ""
  let n := num.natAbs
  let d := den
  if d = 1 then sign ++ toString n ++ ".0"
  else if Int.emod num den = 0 then sign ++ toString (n / d) ++ ".0"
  else
    -- find the least k ≤ 17 with d ∣ 10^k
    let k? := (List.range 18).find? (fun k => 10 ^ k % d = 0)
    match k? with
    | some k =>
      let scaled := n * (10 ^ k / d)
      let ip := scaled / 10 ^ k
      let fp := scaled % 10 ^ k
      let fpStr := zeroPad (toString fp) k
      -- drop trailing zeros but keep at least one fractional digit
      let fpTrim := String.mk (fpStr.data.reverse.dropWhile (· = '0')).reverse
      let fpFinal := if fpTrim = "" then "0" else fpTrim
      sign ++ toString ip ++ "." ++ fpFinal
    | none =>
      let scaled := n * 10 ^ 17 / d
      sign ++ toString (scaled / 10 ^ 17) ++ "." ++ zeroPad (toString (scaled % 10 ^ 17)) 17

/-- Python `str(v)` / `'...'.format(v)` with an empty format spec. -/
def pyStr : Value → String
  | VInt n => toString n
  | VFloat num den => pyFloatRepr num den
  | VStr s => s
  | VBool b => if b then "True" else "False"
  | VNone => "None"

/-- Python truthiness. -/
def pyTruthy : Value → Bool
  | VInt n => n ≠ 0
  | VFloat num _ => num ≠ 0
  | VStr s => s ≠ ""
  | VBool b => b
  | VNone => false

/-- A value as an int for a `d` format spec: Python accepts ints and bools
there and raises for anything else. -/
def valAsInt : Value → Except String Int
  | VInt n => Except.ok n
  | VBool b => Except.ok (if b then 1 else 0)
  | _ => Except.error "Unknown format code d for object"

/-- A value as a number (exact rational pair) for an `f` format spec or
for arithmetic: ints, floats and bools qualify. -/
def valAsNum : Value → Except String (Int × Nat)
  | VInt n => Except.ok (n, 1)
  | VFloat num den => Except.ok (num, den)
  | VBool b => Except.ok ((if b then 1 else 0), 1)
  | _ => Except.error "Unknown format code f for object"

/-- Python `int(v)` coercion (used by the GetHighLimit formatter). -/
def pyIntCoerce : Value → Except String Int
  | VInt n => Except.ok n
  | VBool b => Except.ok (if b then 1 else 0)
  | VFloat num den => Except.ok (Int.tdiv num den)
  | VStr s => Except.ok (pyInt s)
  | VNone => Except.error "int of None"

/-! ### Regular expressions

A small total matcher covering exactly the constructs used by the
catalog's patterns (`commands.py`): literal characters, the classes `\d`,
`\w`, `\s`, small sets, option `?`, bounded repetition `{m,n}`, one-or-more
`+` of a character class, alternation, and named / numbered groups.
`fullmatch` semantics: the whole payload must be consumed.  Candidate
matches are produced in backtracking priority order (greedy first), as in
Python's engine. -/

inductive CClass where
  | litc (c : Char)
  | digit
  | wordc
  | wordSpace
  | oneOf (cs : List Char)
deriving DecidableEq, Repr

def cTest : CClass → Char → Bool
  | .litc c, x => x = c
  | .digit, x => x.isDigit
  | .wordc, x => x.isAlphanum || x = '_'
  | .wordSpace, x => x.isAlphanum || x = '_' || x = ' ' || x = '\t' || x = '\n' || x = '\r'
  | .oneOf cs, x => cs.contains x

inductive Re where
  | eps
  | cls (c : CClass)
  | seq (a b : Re)
  | alt (a b : Re)
  | opt (a : Re)
  | group (n : String) (a : Re)
  | plusCls (c : CClass)
deriving Repr

/-- All ways to match `r` against a prefix of `s`, greedy-first, returning
the remaining input and accumulated group captures. -/
def mrun : Re → List Char → Groups → List (List Char × Groups)
  | .eps, s, g => [(s, g)]
  | .cls c, s, g =>
    match s with
    | [] => []
    | x :: t => if cTest c x then [(t, g)] else []
  | .seq a b, s, g => (mrun a s g).flatMap (fun p => mrun b p.1 p.2)
  | .alt a b, s, g => mrun a s g ++ mrun b s g
  | .opt a, s, g => mrun a s g ++ [(s, g)]
  | .group n a, s, g =>
    (mrun a s g).map (fun p => (p.1, gSet p.2 n (String.mk (s.take (s.length - p.1.length)))))
  | .plusCls c, s, g =>
    let pre := s.takeWhile (cTest c)
    (List.range pre.length).map (fun i => (s.drop (pre.length - i), g))

/-- `re.fullmatch`: the first (highest-priority) candidate consuming the
whole input, with its group captures. -/
def reFullmatch (r : Re) (s : String) : Option Groups :=
  ((mrun r s.data []).find? (fun p => p.1.isEmpty)).map (·.2)

/-- `s₁ s₂ … sₙ` concatenation of a literal string. -/
def reStr (s : String) : Re :=
  s.data.foldr (fun c acc => Re.seq (Re.cls (CClass.litc c)) acc) Re.eps

/-- `a{0,k}` as nested greedy options. -/
def optChain (a : Re) : Nat → Re
  | 0 => Re.eps
  | n + 1 => Re.opt (Re.seq a (optChain a n))

/-- `m` required copies of `a` followed by a tail. -/
def reqChain (a : Re) : Nat → Re → Re
  | 0, t => t
  | m + 1, t => Re.seq a (reqChain a m t)

/-- `a{m,n}` (greedy). -/
def mkRep (a : Re) (m n : Nat) : Re :=
  reqChain a m (optChain a (n - m))

def reDigit : Re := Re.cls CClass.digit
def reDigits (m n : Nat) : Re := mkRep reDigit m n
/-- `[-+ ]?` — the catalog's optional sign with space tolerance. -/
def reSignOpt : Re := Re.opt (Re.cls (CClass.oneOf ['-', '+', ' ']))
/-- The catalog's optional space after a mnemonic (` ?`). -/
def reOptSpace : Re := Re.opt (Re.cls (CClass.litc ' '))
def reChr (c : Char) : Re := Re.cls (CClass.litc c)

/-- Right-nested sequence of a list of regexes. -/
def reSeq (l : List Re) : Re := l.foldr Re.seq Re.eps

/-! ### The command catalog (`lx200/commands.py`)

One constructor per registered command class, in source order.
`UnknownCommand` is the unregistered fallback. -/

inductive CmdId where
  | ACK | EOT
  | AutomaticAlignment | LandAlignment | PolarAlignment | AltAzAlignment
  | SetAltitudeAntiBacklash | SetDeclinationAntiBacklash
  | SetAzimuthAntiBacklash | SetRightAscentionAntiBacklash
  | IncreaseReticleBrightness | DecreaseReticleBrightness
  | SetReticleFlashRate | SetReticleFlashDutyCycle
  | SyncSelenographic | SyncDatabase
  | DistanceBars
  | MoveFocuserInward | MoveFocuserOutward | PulseFocuser | TiltCorrectorPlate
  | HaltFocuserMotion | SetFocuserPreset | SetFocuserPresetName
  | SyncFocuserToPreset | SetFocuserSpeedFastest | SetFocuserSpeedSlowest
  | SetFocuserSpeed | QueryFocuserBusyStatus
  | GetAlignmentMenuEntry0 | GetAlignmentMenuEntry1 | GetAlignmentMenuEntry2
  | GetLocalTime12H | GetAltitude | GetBrowseBrighterMagnitudeLimit
  | GetDate | GetClockFormat | GetDeclination
  | GetSelectedObjectDeclination | GetSelectedTargetDeclination
  | GetSelenographicLatitude | GetSelenographicLongitude
  | GetFindFieldDiameter | GetBrowseFaintMagnitudeLimit
  | GetUTCOffsetTime | GetSiteLongitude | GetDailySavingsTimeSettings
  | GetHighLimit | GetLocalTime24H | GetDistanceToMeridian
  | GetLargerSizeLimit
  | GetSite1Name | GetSite2Name | GetSite3Name | GetSite4Name
  | GetBacklashValues | GetHomeData | GetSensorOffsets
  | GetLowerLimit | GetMinimumQualityForFind
  | GetRightAscencion | GetSelectedObjectRightAscencion
  | GetSelectedTargetRightAscencion
  | GetSiderealTime | GetSmallerSizeLimit | GetTrackingRate | GetSiteLatitude
  | GetFirmwareDate | GetFirmwareNumber | GetProductName | GetFirmwareTime
  | GetAlignmentStatus | GetDeepskySearchString | GetAzimuth
  | CalibrateHomePosition | SeekHomePosition | BypassDSTEntry
  | Sleep | Park | SetParkPosition | WakeUp | QueryHomeStatus
  | ToggleTimeFormat | Initialize
  | SlewToTargetAltAz
  | GuideNorth | GuideSouth | GuideEast | GuideWest
  | MoveEast | MoveNorth | MoveSouth | MoveWest
  | SlewToTargetObject | SlewToTarget
  | HighPrecisionToggle | PrecisionPositionToggle
  | SelectSite
  | HaltAll | HaltEastward | HaltNorthwawrd | HaltSouthward | HaltWestward
  | SetSlewRateToCentering | SetSlewRateToGuiding | SetSlewRateToFinding
  | SetSlewRateToMax
  | SetRightAscentionSlewRate | SetAzimuthSlewRate
  | SetDeclinationSlewRate | SetAltitudeSlewRate | SetGuideRate
  | SetTargetAltitude | SetBrighterLimit | SetBaudRate | SetHandboxDate
  | SetTargetDeclination
  | SetTargetSelenographicLatitude | SetTargetSelenographicLongitude
  | SetFaintMagnitude | SetFieldDiameter | SetSiteLongitude | SetUTCOffset
  | SetDSTEnabled | SetMaximumElevation
  | SetSmallestObjectSize | SetLargestObjectSize | SetLocalTime
  | EnableFlexureCorrection | DisableFlexureCorrection
  | SetSite1Name | SetSite2Name | SetSite3Name | SetSite4Name
  | SetLowestElevation | SetBacklashValues | SetHomeData | SetSensorOffsets
  | StepQualityLimit | SetTargetRightAscencion | SetLocalSiderealTime
  | SetSiteLatitude | SetTrackingRate
  | EnableAltitudePEC | DisableAltitudePEC
  | EnableRightAscencionPEC | EnableAzimuthPEC
  | DisableRightAscencionPEC | DisableAzimuthPEC
  | SetSlewRate | SetObjectSelectionString | SetTargetAzimuth
  | IncrementManualRate | DecrementManualRate
  | SetLunarTracking | SelectCustomTrackingRate
  | SelectSiderealTrackingRate | SelectSolarTrackingRate
  | UnknownCommand
deriving DecidableEq, Repr

/-- A command pattern: a literal byte string or a compiled regex
(`SimpleCommand.can_be` compares literals by equality and regexes by
`fullmatch`). -/
inductive Pat where
  | lit (s : String)
  | regex (r : Re)

/-- Group-to-field converters (`int` by default, `float`/`str` via
`default_type` or `type_map`). -/
inductive Conv where
  | toInt
  | toFloat
  | toStr
deriving DecidableEq, Repr

/-- Apply a converter to an (optionally missing) capture: a group that did
not participate yields the converter's zero value, as in
`SimpleNumericCommand.parse`. -/
def convApply : Conv → Option String → Value
  | .toInt, some s => VInt (pyInt s)
  | .toInt, none => VInt 0
  | .toFloat, some s => VFloat (pyFloat s).1 (pyFloat s).2
  | .toFloat, none => VFloat 0 1
  | .toStr, some s => VStr s
  | .toStr, none => VStr ""

/-- How a command builds its serialized fields from a match:
`SimpleCommand.parse` keeps no fields; a single unnamed group becomes
`value`; named groups become attributes listed in `attr` field order
(which is the order `serialize` emits them). -/
inductive Extract where
  | nofields
  | unnamed (c : Conv)
  | named (fs : List (String × Conv))
deriving Repr

/-- `SignedDMSCommand.parse`: when the parsed degrees are negative, negate
minutes and seconds after capture. -/
def dmsNegate (fm : FieldMap) : FieldMap :=
  match fmGet fm "degrees" with
  | some (VInt d) =>
    if d < 0 then
      let fm1 := match fmGet fm "minutes" with
        | some (VInt m) => fmSet fm "minutes" (VInt (-m))
        | _ => fm
      match fmGet fm1 "seconds" with
        | some (VInt s) => fmSet fm1 "seconds" (VInt (-s))
        | _ => fm1
    else fm
  | _ => fm

/-- Catalog metadata of one command class: pattern, field extraction,
signed-DMS flag, store/load paths, fixed `store_value`, and the serialized
fields of a default-constructed instance (used when the store seeds paths). -/
structure CmdMeta where
  pattern : Pat
  extract : Extract
  dms : Bool := false
  store_path : Option String := none
  load_path : Option String := none
  store_value : Option FieldMap := none
  dfields : FieldMap := []

/-- Shorthand for a plain literal command with no store binding. -/
def litM (s : String) : CmdMeta := { pattern := Pat.lit s, extract := Extract.nofields }

/-- The two-digit field used all over the catalog. -/
def reD2 : Re := reDigits 2 2

/-- `[-+ ]?\d{2}` — a signed two-digit degrees capture. -/
def reSignedD2 : Re := Re.seq reSignOpt reD2


/-- Shared metadata of alias subclasses that inherit the parent's pattern
and store path (`SetDeclinationAntiBacklash`, `SetRightAscentionAntiBacklash`,
`GetSelectedTargetDeclination`, `GetSelectedTargetRightAscencion`,
`SetAzimuthSlewRate`, `SetAltitudeSlewRate`, `EnableAzimuthPEC`,
`DisableAzimuthPEC`). -/
def altitudeAntiBacklashMeta : CmdMeta :=
  { pattern := Pat.regex (reSeq [reStr "$BA", reOptSpace, Re.group "1" (reDigits 1 2)]),
    extract := Extract.unnamed Conv.toInt,
    store_path := some "mount.backlash.altitude", dfields := [("value", VInt 0)] }

def azimuthAntiBacklashMeta : CmdMeta :=
  { pattern := Pat.regex (reSeq [reStr "$BZ", reOptSpace, Re.group "1" (reDigits 1 2)]),
    extract := Extract.unnamed Conv.toInt,
    store_path := some "mount.backlash.azimuth", dfields := [("value", VInt 0)] }

def selectedDeclinationMeta : CmdMeta :=
  { litM "Gd" with load_path := some "mount.target.declination" }

def selectedRightAscencionMeta : CmdMeta :=
  { litM "Gr" with load_path := some "mount.target.right_ascencion" }

def raSlewRateMeta : CmdMeta :=
  { pattern := Pat.regex (reSeq [reStr "RA", reOptSpace,
      Re.group "value" (reSeq [reDigit, reDigit, reChr '.', reDigit])]),
    extract := Extract.named [("value", Conv.toFloat)],
    store_path := some "mount.slew.rate.right_ascencion",
    dfields := [("value", VInt 0)] }

def decSlewRateMeta : CmdMeta :=
  { pattern := Pat.regex (reSeq [reStr "Re", reOptSpace,
      Re.group "value" (reSeq [reDigit, reDigit, reChr '.', reDigit])]),
    extract := Extract.named [("value", Conv.toFloat)],
    store_path := some "mount.slew.rate.declination",
    dfields := [("value", VInt 0)] }

def raPECEnableMeta : CmdMeta :=
  { litM "STZ+" with store_path := some "mount.correction.pec.right_ascencion.enabled", store_value := some [("value", VBool true)] }

def raPECDisableMeta : CmdMeta :=
  { litM "STZ-" with store_path := some "mount.correction.pec.right_ascencion.enabled", store_value := some [("value", VBool false)] }

def cmdMeta : CmdId → CmdMeta
  | .ACK => { pattern := Pat.lit "\x06", extract := Extract.nofields,
              load_path := some "mount.alignment_mode" }
  | .EOT => litM "\x04"
  | .AutomaticAlignment => litM "Aa"
  | .LandAlignment => { litM "AL" with store_path := some "mount.alignment_mode", store_value := some [("value", VStr "L")] }
  | .PolarAlignment => { litM "AP" with store_path := some "mount.alignment_mode", store_value := some [("value", VStr "P")] }
  | .AltAzAlignment => { litM "AA" with store_path := some "mount.alignment_mode", store_value := some [("value", VStr "A")] }
  | .SetAltitudeAntiBacklash => altitudeAntiBacklashMeta
  | .SetDeclinationAntiBacklash => altitudeAntiBacklashMeta
  | .SetAzimuthAntiBacklash => azimuthAntiBacklashMeta
  | .SetRightAscentionAntiBacklash => azimuthAntiBacklashMeta
  | .IncreaseReticleBrightness => litM "B+"
  | .DecreaseReticleBrightness => litM "B-"
  | .SetReticleFlashRate =>
    { pattern := Pat.regex (reSeq [reStr "$B", reOptSpace, Re.group "1" reDigit]),
      extract := Extract.unnamed Conv.toInt,
      store_path := some "reticle.flash.rate", dfields := [("value", VInt 0)] }
  | .SetReticleFlashDutyCycle =>
    { pattern := Pat.regex (reSeq [reStr "$BD", reOptSpace, Re.group "1" (reDigits 1 2)]),
      extract := Extract.unnamed Conv.toInt,
      store_path := some "reticle.flash.duty_cycle", dfields := [("value", VInt 0)] }
  | .SyncSelenographic => litM "CL"
  | .SyncDatabase => litM "CM"
  | .DistanceBars => { litM "D" with load_path := some "mount.target.distance" }
  | .MoveFocuserInward => litM "F+"
  | .MoveFocuserOutward => litM "F-"
  | .PulseFocuser =>
    { pattern := Pat.regex (reSeq [reStr "FP", reOptSpace,
        Re.group "1" (Re.seq reSignOpt (reDigits 1 5))]),
      extract := Extract.unnamed Conv.toInt, dfields := [("value", VInt 0)] }
  | .TiltCorrectorPlate =>
    -- a SimpleCommand: the capture is checked but `parse` keeps no fields
    { pattern := Pat.regex (reSeq [reStr "FC", reOptSpace,
        Re.group "1" (Re.cls (CClass.oneOf ['n', 's', 'e', 'w']))]),
      extract := Extract.nofields }
  | .HaltFocuserMotion => litM "FQ"
  | .SetFocuserPreset =>
    { pattern := Pat.regex (reSeq [reStr "FLD", reOptSpace,
        Re.group "1" (Re.cls (CClass.oneOf "123456789".data))]),
      extract := Extract.unnamed Conv.toInt, dfields := [("value", VInt 0)] }
  | .SetFocuserPresetName =>
    -- default_type is `str`, so both groups convert with `str`
    { pattern := Pat.regex (reSeq [reStr "FLN", reOptSpace,
        Re.group "idx" (Re.cls (CClass.oneOf "123456789".data)),
        Re.group "value" (Re.plusCls CClass.wordSpace)]),
      extract := Extract.named [("value", Conv.toStr), ("idx", Conv.toStr)],
      store_path := some "focuser.presets.name_{idx}",
      dfields := [("value", VInt 0), ("idx", VInt 1)] }
  | .SyncFocuserToPreset =>
    { pattern := Pat.regex (reSeq [reStr "FLS", reOptSpace,
        Re.group "1" (Re.cls (CClass.oneOf "123456789".data))]),
      extract := Extract.unnamed Conv.toInt, dfields := [("value", VInt 0)] }
  | .SetFocuserSpeedFastest => { litM "FF" with store_path := some "focuser.speed", store_value := some [("value", VInt 4)] }
  | .SetFocuserSpeedSlowest => { litM "FS" with store_path := some "focuser.speed", store_value := some [("value", VInt 1)] }
  | .SetFocuserSpeed =>
    { pattern := Pat.regex (reSeq [reStr "F", reOptSpace,
        Re.group "1" (Re.cls (CClass.oneOf "1234".data))]),
      extract := Extract.unnamed Conv.toInt,
      store_path := some "focuser.speed", dfields := [("value", VInt 1)] }
  | .QueryFocuserBusyStatus => { litM "FB" with load_path := some "focuser.busy" }
  | .GetAlignmentMenuEntry0 => { litM "G0" with load_path := some "mount.alignment.menu_0" }
  | .GetAlignmentMenuEntry1 => { litM "G1" with load_path := some "mount.alignment.menu_1" }
  | .GetAlignmentMenuEntry2 => { litM "G2" with load_path := some "mount.alignment.menu_2" }
  | .GetLocalTime12H => { litM "Ga" with load_path := some "site.time" }
  | .GetAltitude => { litM "GA" with load_path := some "mount.altitude" }
  | .GetBrowseBrighterMagnitudeLimit => litM "Gb"
  | .GetDate => { litM "GC" with load_path := some "site.date" }
  | .GetClockFormat => { litM "Gc" with load_path := some "mount.clock_format_24h" }
  | .GetDeclination => { litM "GD" with load_path := some "mount.declination" }
  | .GetSelectedObjectDeclination => selectedDeclinationMeta
  | .GetSelectedTargetDeclination => selectedDeclinationMeta
  | .GetSelenographicLatitude =>
    { litM "GE" with load_path := some "mount.target.selenographic.latitude" }
  | .GetSelenographicLongitude =>
    { litM "Ge" with load_path := some "mount.target.selenographic.longitude" }
  | .GetFindFieldDiameter => litM "GF"
  | .GetBrowseFaintMagnitudeLimit => litM "Gf"
  | .GetUTCOffsetTime => { litM "GG" with load_path := some "site.utc_offset" }
  | .GetSiteLongitude => { litM "Gg" with load_path := some "site.longitude" }
  | .GetDailySavingsTimeSettings => { litM "GH" with load_path := some "site.dst.enabled" }
  | .GetHighLimit => litM "Gh"
  | .GetLocalTime24H => { litM "GL" with load_path := some "site.time" }
  | .GetDistanceToMeridian => litM "Gm"
  | .GetLargerSizeLimit => litM "Gl"
  | .GetSite1Name => { litM "GM" with load_path := some "site.name_1" }
  | .GetSite2Name => { litM "GN" with load_path := some "site.name_2" }
  | .GetSite3Name => { litM "GO" with load_path := some "site.name_3" }
  | .GetSite4Name => { litM "GP" with load_path := some "site.name_4" }
  | .GetBacklashValues => { litM "GpB" with load_path := some "mount.backlash.values" }
  | .GetHomeData => litM "GpH"
  | .GetSensorOffsets => litM "GpS"
  | .GetLowerLimit => litM "Go"
  | .GetMinimumQualityForFind => litM "Gq"
  | .GetRightAscencion => { litM "GR" with load_path := some "mount.right_ascencion" }
  | .GetSelectedObjectRightAscencion => selectedRightAscencionMeta
  | .GetSelectedTargetRightAscencion => selectedRightAscencionMeta
  | .GetSiderealTime => litM "GS"
  | .GetSmallerSizeLimit => litM "Gs"
  | .GetTrackingRate => { litM "GT" with load_path := some "mount.tracking.rate" }
  | .GetSiteLatitude => { litM "Gt" with load_path := some "site.latitude" }
  | .GetFirmwareDate => { litM "GVD" with load_path := some "firmware.date" }
  | .GetFirmwareNumber => { litM "GVN" with load_path := some "firmware.number" }
  | .GetProductName => litM "GVP"
  | .GetFirmwareTime => { litM "GVT" with load_path := some "firmware.time" }
  | .GetAlignmentStatus => litM "GW"
  | .GetDeepskySearchString => litM "Gy"
  | .GetAzimuth => { litM "GZ" with load_path := some "mount.azimuth" }
  | .CalibrateHomePosition => litM "hC"
  | .SeekHomePosition => litM "hF"
  | .BypassDSTEntry =>
    { pattern := Pat.regex (reSeq [reStr "hI", reOptSpace,
        Re.group "year" reD2, Re.group "month" reD2, Re.group "day" reD2,
        Re.group "hours" reD2, Re.group "minutes" reD2, Re.group "seconds" reD2]),
      extract := Extract.named [("year", Conv.toInt), ("month", Conv.toInt),
        ("day", Conv.toInt), ("hours", Conv.toInt), ("minutes", Conv.toInt),
        ("seconds", Conv.toInt)],
      dfields := [("year", VNone), ("month", VNone), ("day", VNone),
        ("hours", VNone), ("minutes", VNone), ("seconds", VNone)] }
  | .Sleep => litM "hN"
  | .Park => litM "hP"
  | .SetParkPosition => litM "hS"
  | .WakeUp => litM "hW"
  | .QueryHomeStatus => litM "h?"
  | .ToggleTimeFormat => { litM "H" with store_path := some "mount.clock_format_24h", store_value := some [("value", VBool true)] }
  | .Initialize => litM "I"
  | .SlewToTargetAltAz => litM "MA"
  | .GuideNorth =>
    { pattern := Pat.regex (reSeq [reStr "Mgn", reOptSpace, Re.group "1" (reDigits 4 4)]),
      extract := Extract.unnamed Conv.toInt, dfields := [("value", VInt 0)] }
  | .GuideSouth =>
    { pattern := Pat.regex (reSeq [reStr "Mgs", reOptSpace, Re.group "1" (reDigits 4 4)]),
      extract := Extract.unnamed Conv.toInt, dfields := [("value", VInt 0)] }
  | .GuideEast =>
    { pattern := Pat.regex (reSeq [reStr "Mge", reOptSpace, Re.group "1" (reDigits 4 4)]),
      extract := Extract.unnamed Conv.toInt, dfields := [("value", VInt 0)] }
  | .GuideWest =>
    { pattern := Pat.regex (reSeq [reStr "Mgw", reOptSpace, Re.group "1" (reDigits 4 4)]),
      extract := Extract.unnamed Conv.toInt, dfields := [("value", VInt 0)] }
  | .MoveEast => litM "Me"
  | .MoveNorth => litM "Mn"
  | .MoveSouth => litM "Ms"
  | .MoveWest => litM "Mw"
  | .SlewToTargetObject => litM "MS"
  | .SlewToTarget => litM "MS"
  | .HighPrecisionToggle => { litM "P" with store_path := some "high_precision_enabled", store_value := some [("value", VBool true)] }
  | .PrecisionPositionToggle => { litM "U" with store_path := some "high_precision_enabled", store_value := some [("value", VBool true)] }
  | .SelectSite =>
    { pattern := Pat.regex (reSeq [reStr "W", reOptSpace, Re.group "1" reDigit]),
      extract := Extract.unnamed Conv.toInt,
      store_path := some "site.selected", dfields := [("value", VInt 0)] }
  | .HaltAll => litM "Q"
  | .HaltEastward => litM "Qe"
  | .HaltNorthwawrd => litM "Qn"
  | .HaltSouthward => litM "Qs"
  | .HaltWestward => litM "Qw"
  | .SetSlewRateToCentering => { litM "RC" with store_path := some "mount.slew.rate", store_value := some [("value", VStr "centering")] }
  | .SetSlewRateToGuiding => { litM "RG" with store_path := some "mount.slew.rate", store_value := some [("value", VStr "guiding")] }
  | .SetSlewRateToFinding => { litM "RM" with store_path := some "mount.slew.rate", store_value := some [("value", VStr "finding")] }
  | .SetSlewRateToMax => { litM "RS" with store_path := some "mount.slew.rate", store_value := some [("value", VStr "max")] }
  | .SetRightAscentionSlewRate => raSlewRateMeta
  | .SetAzimuthSlewRate => raSlewRateMeta
  | .SetDeclinationSlewRate => decSlewRateMeta
  | .SetAltitudeSlewRate => decSlewRateMeta
  | .SetGuideRate =>
    { pattern := Pat.regex (reSeq [reStr "Rg", reOptSpace,
        Re.group "value" (reSeq [reDigit, reDigit, reChr '.', reDigit])]),
      extract := Extract.named [("value", Conv.toFloat)],
      store_path := some "mount.guide.rate",
      dfields := [("value", VInt 0)] }
  | .SetTargetAltitude =>
    { pattern := Pat.regex (reSeq [reStr "Sa", reOptSpace,
        Re.group "degrees" reSignedD2, reChr '*', Re.group "minutes" reD2,
        Re.opt (reChr (Char.ofNat 39)), Re.opt (Re.group "seconds" reD2)]),
      extract := Extract.named [("degrees", Conv.toInt), ("minutes", Conv.toInt),
        ("seconds", Conv.toInt)],
      dms := true,
      store_path := some "mount.target.altitude",
      dfields := [("degrees", VInt 0), ("minutes", VInt 0), ("seconds", VInt 0)] }
  | .SetBrighterLimit =>
    { pattern := Pat.regex (reSeq [reStr "Sb", reOptSpace,
        Re.group "value" (reSeq [reSignOpt, reDigit, reDigit, reChr '.', reDigit])]),
      extract := Extract.named [("value", Conv.toFloat)],
      dfields := [("value", VInt 0)] }
  | .SetBaudRate =>
    { pattern := Pat.regex (reSeq [reStr "SB", reOptSpace, Re.group "value" reDigit]),
      extract := Extract.named [("value", Conv.toInt)],
      store_path := some "comms.baud_rate", dfields := [("value", VInt 0)] }
  | .SetHandboxDate =>
    { pattern := Pat.regex (reSeq [reStr "SC", reOptSpace,
        Re.group "month" reD2, reChr '/', Re.group "day" reD2, reChr '/',
        Re.group "year" reD2]),
      extract := Extract.named [("month", Conv.toInt), ("day", Conv.toInt),
        ("year", Conv.toInt)],
      store_path := some "site.date",
      dfields := [("month", VNone), ("day", VNone), ("year", VNone)] }
  | .SetTargetDeclination =>
    { pattern := Pat.regex (reSeq [reStr "Sd", reOptSpace,
        Re.group "degrees" reSignedD2, reChr ':', Re.group "minutes" reD2,
        Re.opt (reChr ':'), Re.opt (Re.group "seconds" reD2)]),
      extract := Extract.named [("degrees", Conv.toInt), ("minutes", Conv.toInt),
        ("seconds", Conv.toInt)],
      dms := true,
      store_path := some "mount.target.declination",
      dfields := [("degrees", VInt 0), ("minutes", VInt 0), ("seconds", VInt 0)] }
  | .SetTargetSelenographicLatitude =>
    { pattern := Pat.regex (reSeq [reStr "SE", reOptSpace,
        Re.group "degrees" reSignedD2, reChr ':', Re.group "minutes" reD2,
        Re.opt (reChr ':'), Re.opt (Re.group "seconds" reD2)]),
      extract := Extract.named [("degrees", Conv.toInt), ("minutes", Conv.toInt),
        ("seconds", Conv.toInt)],
      dms := true,
      store_path := some "mount.target.selenographic.latitude",
      dfields := [("degrees", VInt 0), ("minutes", VInt 0), ("seconds", VInt 0)] }
  | .SetTargetSelenographicLongitude =>
    { pattern := Pat.regex (reSeq [reStr "Se", reOptSpace,
        Re.group "degrees" reSignedD2, reChr ':', Re.group "minutes" reD2,
        Re.opt (reChr ':'), Re.opt (Re.group "seconds" reD2)]),
      extract := Extract.named [("degrees", Conv.toInt), ("minutes", Conv.toInt),
        ("seconds", Conv.toInt)],
      dms := true,
      store_path := some "mount.target.selenographic.longitude",
      dfields := [("degrees", VInt 0), ("minutes", VInt 0), ("seconds", VInt 0)] }
  | .SetFaintMagnitude =>
    { pattern := Pat.regex (reSeq [reStr "Sf", reOptSpace,
        Re.group "value" (reSeq [reSignOpt, reDigit, reDigit, reChr '.', reDigit])]),
      extract := Extract.named [("value", Conv.toFloat)],
      dfields := [("value", VInt 0)] }
  | .SetFieldDiameter =>
    { pattern := Pat.regex (reSeq [reStr "SF", reOptSpace,
        Re.group "value" (reDigits 3 3)]),
      extract := Extract.named [("value", Conv.toInt)], dfields := [("value", VInt 0)] }
  | .SetSiteLongitude =>
    { pattern := Pat.regex (reSeq [reStr "Sg", reOptSpace,
        Re.group "degrees" (reDigits 3 3), Re.cls (CClass.oneOf ['*', ':']),
        Re.group "minutes" reD2]),
      extract := Extract.named [("degrees", Conv.toInt), ("minutes", Conv.toInt)],
      store_path := some "site.longitude",
      dfields := [("degrees", VNone), ("minutes", VNone)] }
  | .SetUTCOffset =>
    { pattern := Pat.regex (reSeq [reStr "SG", reOptSpace,
        Re.group "value" (reSeq [reSignOpt, reDigit, reDigit,
          Re.opt (reChr '.'), mkRep reDigit 0 1])]),
      extract := Extract.named [("value", Conv.toFloat)],
      store_path := some "site.utc_offset", dfields := [("value", VInt 0)] }
  | .SetDSTEnabled =>
    { pattern := Pat.regex (reSeq [reStr "SH", reOptSpace, Re.group "value" reDigit]),
      extract := Extract.named [("value", Conv.toInt)],
      store_path := some "site.dst.enabled", dfields := [("value", VInt 0)] }
  | .SetMaximumElevation =>
    { pattern := Pat.regex (reSeq [reStr "Sh", reOptSpace, Re.group "value" reD2]),
      extract := Extract.named [("value", Conv.toInt)], dfields := [("value", VInt 0)] }
  | .SetSmallestObjectSize =>
    { pattern := Pat.regex (reSeq [reStr "Sl", reOptSpace, Re.group "1" (reDigits 3 3)]),
      extract := Extract.unnamed Conv.toInt, dfields := [("value", VInt 0)] }
  | .SetLargestObjectSize =>
    { pattern := Pat.regex (reSeq [reStr "Ss", reOptSpace, Re.group "1" (reDigits 3 3)]),
      extract := Extract.unnamed Conv.toInt, dfields := [("value", VInt 0)] }
  | .SetLocalTime =>
    { pattern := Pat.regex (reSeq [reStr "SL", reOptSpace,
        Re.group "hours" reD2, reChr ':', Re.group "minutes" reD2, reChr ':',
        Re.group "seconds" reD2]),
      extract := Extract.named [("hours", Conv.toInt), ("minutes", Conv.toInt),
        ("seconds", Conv.toInt)],
      store_path := some "site.time",
      dfields := [("hours", VNone), ("minutes", VNone), ("seconds", VNone)] }
  | .EnableFlexureCorrection =>
    { litM "Sm+" with store_path := some "mount.correction.flexure.enabled", store_value := some [("value", VBool true)] }
  | .DisableFlexureCorrection =>
    { litM "Sm-" with store_path := some "mount.correction.flexure.enabled", store_value := some [("value", VBool false)] }
  | .SetSite1Name =>
    { pattern := Pat.regex (reSeq [reStr "SM", reOptSpace,
        Re.group "1" (mkRep (Re.cls CClass.wordSpace) 1 15)]),
      extract := Extract.unnamed Conv.toStr,
      store_path := some "site.name_1", dfields := [("value", VInt 0)] }
  | .SetSite2Name =>
    { pattern := Pat.regex (reSeq [reStr "SN", reOptSpace,
        Re.group "1" (mkRep (Re.cls CClass.wordSpace) 1 15)]),
      extract := Extract.unnamed Conv.toStr,
      store_path := some "site.name_2", dfields := [("value", VInt 0)] }
  | .SetSite3Name =>
    { pattern := Pat.regex (reSeq [reStr "SO", reOptSpace,
        Re.group "1" (mkRep (Re.cls CClass.wordSpace) 1 15)]),
      extract := Extract.unnamed Conv.toStr,
      store_path := some "site.name_3", dfields := [("value", VInt 0)] }
  | .SetSite4Name =>
    { pattern := Pat.regex (reSeq [reStr "SP", reOptSpace,
        Re.group "1" (mkRep (Re.cls CClass.wordSpace) 1 15)]),
      extract := Extract.unnamed Conv.toStr,
      store_path := some "site.name_4", dfields := [("value", VInt 0)] }
  | .SetLowestElevation =>
    { pattern := Pat.regex (reSeq [reStr "So", reOptSpace, Re.group "1" reD2, reChr '*']),
      extract := Extract.unnamed Conv.toInt, dfields := [("value", VInt 0)] }
  | .SetBacklashValues =>
    { pattern := Pat.regex (reSeq [reStr "SpB", reOptSpace, Re.group "1" reD2]),
      extract := Extract.unnamed Conv.toInt, dfields := [("value", VInt 0)] }
  | .SetHomeData =>
    { pattern := Pat.regex (reSeq [reStr "SpH", reOptSpace, Re.group "1" reD2]),
      extract := Extract.unnamed Conv.toInt, dfields := [("value", VInt 0)] }
  | .SetSensorOffsets =>
    { pattern := Pat.regex (reSeq [reStr "SpS", reOptSpace, Re.group "1" (reDigits 3 3)]),
      extract := Extract.unnamed Conv.toInt, dfields := [("value", VInt 0)] }
  | .StepQualityLimit => litM "Sq"
  | .SetTargetRightAscencion =>
    -- `type_map` sends `minutes` through `float`
    { pattern := Pat.regex (reSeq [reStr "Sr", reOptSpace,
        Re.group "hours" reD2, reChr ':',
        Re.group "minutes" (reSeq [reDigit, reDigit, Re.opt (reChr '.'),
          mkRep reDigit 0 1]),
        Re.opt (reChr ':'), Re.opt (Re.group "seconds" reD2)]),
      extract := Extract.named [("hours", Conv.toInt), ("minutes", Conv.toFloat),
        ("seconds", Conv.toInt)],
      store_path := some "mount.target.right_ascencion",
      dfields := [("hours", VNone), ("minutes", VNone), ("seconds", VNone)] }
  | .SetLocalSiderealTime =>
    { pattern := Pat.regex (reSeq [reStr "SS", reOptSpace,
        Re.group "hours" reD2, reChr ':', Re.group "minutes" reD2, reChr ':',
        Re.group "seconds" reD2]),
      extract := Extract.named [("hours", Conv.toInt), ("minutes", Conv.toInt),
        ("seconds", Conv.toInt)],
      dfields := [("hours", VNone), ("minutes", VNone), ("seconds", VNone)] }
  | .SetSiteLatitude =>
    { pattern := Pat.regex (reSeq [reStr "St", reOptSpace,
        Re.group "degrees" reSignedD2, Re.cls (CClass.oneOf ['*', ':']),
        Re.group "minutes" reD2, reChr ':', Re.group "seconds" reD2]),
      extract := Extract.named [("degrees", Conv.toInt), ("minutes", Conv.toInt),
        ("seconds", Conv.toInt)],
      dms := true,
      store_path := some "site.latitude",
      dfields := [("degrees", VInt 0), ("minutes", VInt 0), ("seconds", VInt 0)] }
  | .SetTrackingRate =>
    { pattern := Pat.regex (reSeq [reStr "ST", reOptSpace,
        Re.group "1" (reSeq [reDigits 2 4, Re.opt (reChr '.'), reDigits 0 6])]),
      extract := Extract.unnamed Conv.toFloat,
      store_path := some "mount.tracking.rate", dfields := [("value", VInt 0)] }
  | .EnableAltitudePEC =>
    { litM "STA+" with store_path := some "mount.correction.pec.altitude.enabled", store_value := some [("value", VBool true)] }
  | .DisableAltitudePEC =>
    { litM "STA-" with store_path := some "mount.correction.pec.altitude.enabled", store_value := some [("value", VBool false)] }
  | .EnableRightAscencionPEC => raPECEnableMeta
  | .EnableAzimuthPEC => raPECEnableMeta
  | .DisableRightAscencionPEC => raPECDisableMeta
  | .DisableAzimuthPEC => raPECDisableMeta
  | .SetSlewRate =>
    { pattern := Pat.regex (reSeq [reStr "Sw", reOptSpace, Re.group "1" reDigit]),
      extract := Extract.unnamed Conv.toInt,
      store_path := some "mount.slew.rate", dfields := [("value", VInt 0)] }
  | .SetObjectSelectionString => litM "SyGPDCO"
  | .SetTargetAzimuth =>
    { pattern := Pat.regex (reSeq [reStr "Sz", reOptSpace,
        Re.group "degrees" (reDigits 3 3), reChr '*', Re.group "minutes" reD2]),
      extract := Extract.named [("degrees", Conv.toInt), ("minutes", Conv.toInt)],
      store_path := some "mount.target.azimuth",
      dfields := [("degrees", VNone), ("minutes", VNone)] }
  | .IncrementManualRate =>
    { pattern := Pat.regex (Re.alt (Re.group "1" (reStr "ST+")) (Re.group "2" (reStr "T+"))),
      extract := Extract.nofields }
  | .DecrementManualRate =>
    { pattern := Pat.regex (Re.alt (Re.group "1" (reStr "ST-")) (Re.group "2" (reStr "T-"))),
      extract := Extract.nofields }
  | .SetLunarTracking =>
    { litM "TL" with store_path := some "mount.tracking.rate_name", store_value := some [("value", VStr "LUNAR")] }
  | .SelectCustomTrackingRate =>
    { litM "TM" with store_path := some "mount.tracking.rate_name", store_value := some [("value", VStr "CUSTOM")] }
  | .SelectSiderealTrackingRate =>
    { litM "TQ" with store_path := some "mount.tracking.rate_name", store_value := some [("value", VStr "SIDEREAL")] }
  | .SelectSolarTrackingRate =>
    { litM "TS" with store_path := some "mount.tracking.rate_name", store_value := some [("value", VStr "SOLAR")] }
  | .UnknownCommand => { pattern := Pat.lit "", extract := Extract.nofields }

/-- `ALL_COMMANDS` in registration order (`@register`, top to bottom of
`commands.py`).  `UnknownCommand` is not registered. -/
def ALL_COMMANDS : List CmdId :=
  [CmdId.ACK, CmdId.EOT,
   CmdId.AutomaticAlignment, CmdId.LandAlignment, CmdId.PolarAlignment,
   CmdId.AltAzAlignment,
   CmdId.SetAltitudeAntiBacklash, CmdId.SetDeclinationAntiBacklash,
   CmdId.SetAzimuthAntiBacklash, CmdId.SetRightAscentionAntiBacklash,
   CmdId.IncreaseReticleBrightness, CmdId.DecreaseReticleBrightness,
   CmdId.SetReticleFlashRate, CmdId.SetReticleFlashDutyCycle,
   CmdId.SyncSelenographic, CmdId.SyncDatabase,
   CmdId.DistanceBars,
   CmdId.MoveFocuserInward, CmdId.MoveFocuserOutward, CmdId.PulseFocuser,
   CmdId.TiltCorrectorPlate, CmdId.HaltFocuserMotion, CmdId.SetFocuserPreset,
   CmdId.SetFocuserPresetName, CmdId.SyncFocuserToPreset,
   CmdId.SetFocuserSpeedFastest, CmdId.SetFocuserSpeedSlowest,
   CmdId.SetFocuserSpeed, CmdId.QueryFocuserBusyStatus,
   CmdId.GetAlignmentMenuEntry0, CmdId.GetAlignmentMenuEntry1,
   CmdId.GetAlignmentMenuEntry2,
   CmdId.GetLocalTime12H, CmdId.GetAltitude, CmdId.GetBrowseBrighterMagnitudeLimit,
   CmdId.GetDate, CmdId.GetClockFormat, CmdId.GetDeclination,
   CmdId.GetSelectedObjectDeclination, CmdId.GetSelectedTargetDeclination,
   CmdId.GetSelenographicLatitude, CmdId.GetSelenographicLongitude,
   CmdId.GetFindFieldDiameter, CmdId.GetBrowseFaintMagnitudeLimit,
   CmdId.GetUTCOffsetTime, CmdId.GetSiteLongitude, CmdId.GetDailySavingsTimeSettings,
   CmdId.GetHighLimit, CmdId.GetLocalTime24H, CmdId.GetDistanceToMeridian,
   CmdId.GetLargerSizeLimit,
   CmdId.GetSite1Name, CmdId.GetSite2Name, CmdId.GetSite3Name, CmdId.GetSite4Name,
   CmdId.GetBacklashValues, CmdId.GetHomeData, CmdId.GetSensorOffsets,
   CmdId.GetLowerLimit, CmdId.GetMinimumQualityForFind,
   CmdId.GetRightAscencion, CmdId.GetSelectedObjectRightAscencion,
   CmdId.GetSelectedTargetRightAscencion,
   CmdId.GetSiderealTime, CmdId.GetSmallerSizeLimit, CmdId.GetTrackingRate,
   CmdId.GetSiteLatitude,
   CmdId.GetFirmwareDate, CmdId.GetFirmwareNumber, CmdId.GetProductName,
   CmdId.GetFirmwareTime,
   CmdId.GetAlignmentStatus, CmdId.GetDeepskySearchString, CmdId.GetAzimuth,
   CmdId.CalibrateHomePosition, CmdId.SeekHomePosition, CmdId.BypassDSTEntry,
   CmdId.Sleep, CmdId.Park, CmdId.SetParkPosition, CmdId.WakeUp,
   CmdId.QueryHomeStatus,
   CmdId.ToggleTimeFormat, CmdId.Initialize,
   CmdId.SlewToTargetAltAz,
   CmdId.GuideNorth, CmdId.GuideSouth, CmdId.GuideEast, CmdId.GuideWest,
   CmdId.MoveEast, CmdId.MoveNorth, CmdId.MoveSouth, CmdId.MoveWest,
   CmdId.SlewToTargetObject, CmdId.SlewToTarget,
   CmdId.HighPrecisionToggle, CmdId.PrecisionPositionToggle,
   CmdId.SelectSite,
   CmdId.HaltAll, CmdId.HaltEastward, CmdId.HaltNorthwawrd, CmdId.HaltSouthward,
   CmdId.HaltWestward,
   CmdId.SetSlewRateToCentering, CmdId.SetSlewRateToGuiding,
   CmdId.SetSlewRateToFinding, CmdId.SetSlewRateToMax,
   CmdId.SetRightAscentionSlewRate, CmdId.SetAzimuthSlewRate,
   CmdId.SetDeclinationSlewRate, CmdId.SetAltitudeSlewRate, CmdId.SetGuideRate,
   CmdId.SetTargetAltitude, CmdId.SetBrighterLimit, CmdId.SetBaudRate,
   CmdId.SetHandboxDate, CmdId.SetTargetDeclination,
   CmdId.SetTargetSelenographicLatitude, CmdId.SetTargetSelenographicLongitude,
   CmdId.SetFaintMagnitude, CmdId.SetFieldDiameter, CmdId.SetSiteLongitude,
   CmdId.SetUTCOffset, CmdId.SetDSTEnabled, CmdId.SetMaximumElevation,
   CmdId.SetSmallestObjectSize, CmdId.SetLargestObjectSize, CmdId.SetLocalTime,
   CmdId.EnableFlexureCorrection, CmdId.DisableFlexureCorrection,
   CmdId.SetSite1Name, CmdId.SetSite2Name, CmdId.SetSite3Name, CmdId.SetSite4Name,
   CmdId.SetLowestElevation, CmdId.SetBacklashValues, CmdId.SetHomeData,
   CmdId.SetSensorOffsets, CmdId.StepQualityLimit,
   CmdId.SetTargetRightAscencion, CmdId.SetLocalSiderealTime,
   CmdId.SetSiteLatitude, CmdId.SetTrackingRate,
   CmdId.EnableAltitudePEC, CmdId.DisableAltitudePEC,
   CmdId.EnableRightAscencionPEC, CmdId.EnableAzimuthPEC,
   CmdId.DisableRightAscencionPEC, CmdId.DisableAzimuthPEC,
   CmdId.SetSlewRate, CmdId.SetObjectSelectionString, CmdId.SetTargetAzimuth,
   CmdId.IncrementManualRate, CmdId.DecrementManualRate,
   CmdId.SetLunarTracking, CmdId.SelectCustomTrackingRate,
   CmdId.SelectSiderealTrackingRate, CmdId.SelectSolarTrackingRate]

/-- A decoded command instance: its class plus the parsed fields
(`serialize`'s attr dict, in attr field order). -/
structure Command where
  id : CmdId
  fields : FieldMap
deriving DecidableEq, Repr

/-- `can_be`: literal patterns compare for equality, regex patterns use
`fullmatch`; `some` carries the match's groups. -/
def patMatch : Pat → String → Option Groups
  | Pat.lit l, s => if s = l then some [] else none
  | Pat.regex r, s => reFullmatch r s

/-- Build the parsed fields from the match, per the `parse` methods of
`SimpleCommand` / `SimpleNumericCommand` / `SignedDMSCommand`. -/
def mkFields (ex : Extract) (dms : Bool) (g : Groups) : FieldMap :=
  let base : FieldMap :=
    match ex with
    | Extract.nofields => []
    | Extract.unnamed c => [("value", convApply c (gGet g "1"))]
    | Extract.named fs => fs.map (fun nc => (nc.1, convApply nc.2 (gGet g nc.1)))
  if dms then dmsNegate base else base

/-- `from_data` for a command class known to match. -/
def cmdFromData (id : CmdId) (g : Groups) : Command :=
  { id := id, fields := mkFields (cmdMeta id).extract (cmdMeta id).dms g }

/-- `Parser.parse`: try every registered command in order, fall back to
`UnknownCommand` carrying the raw payload. -/
def lxDecode (payload : String) : Command :=
  match ALL_COMMANDS.findSome?
      (fun id => (patMatch (cmdMeta id).pattern payload).map (cmdFromData id)) with
  | some c => c
  | none => { id := CmdId.UnknownCommand, fields := [("value", VStr payload)] }

/-- `BaseCommand.serialize`: the fixed `store_value` when the class has
one, otherwise the instance's attr dict. -/
def serializeCmd (c : Command) : FieldMap :=
  match (cmdMeta c.id).store_value with
  | some sv => sv
  | none => c.fields

/-! ### The state store (`lx200/store.py`) -/

/-- Split a character list at every `\x7b`, keeping the separated
segments (the list is never empty). -/
def splitBraces (cs : List Char) : List (List Char) :=
  match cs with
  | [] => [[]]
  | c :: t =>
    match splitBraces t with
    | [] => [[]]
    | s :: rest =>
      if c = Char.ofNat 123 then [] :: s :: rest else (c :: s) :: rest

/-- `str.format(**fields)` on a store path: substitute each `\x7bname\x7d`
placeholder with `str` of the field's value.  A placeholder whose name is
missing from the fields makes the whole resolution fail (the source raises
`KeyError` there; no registered command does). -/
def formatPath (template : String) (fields : FieldMap) : Option String :=
  match splitBraces template.data with
  | [] => some ""
  | first :: parts =>
    parts.foldl
      (fun acc part =>
        match acc with
        | none => none
        | some a =>
          let name := String.mk (part.takeWhile (fun x => x ≠ Char.ofNat 125))
          let rest := String.mk ((part.dropWhile (fun x => x ≠ Char.ofNat 125)).drop 1)
          match fmGet fields name with
          | some v => some (a ++ pyStr v ++ rest)
          | none => none)
      (some (String.mk first))

/-- `get_store_path`: the command's `store_path`, else its `load_path`,
resolved against the command's serialized fields. -/
def get_store_path (c : Command) : Option String :=
  match ((cmdMeta c.id).store_path).orElse (fun _ => (cmdMeta c.id).load_path) with
  | none => none
  | some p => formatPath p (serializeCmd c)

/-- `get_load_path`: the command's `load_path`, else its `store_path`,
resolved likewise. -/
def get_load_path (c : Command) : Option String :=
  match ((cmdMeta c.id).load_path).orElse (fun _ => (cmdMeta c.id).store_path) with
  | none => none
  | some p => formatPath p (serializeCmd c)

/-- The store: dotted path to field-map, as an insertion-ordered
association list (one `defaultdict` of dicts in the source).  Missing
entries read as the empty dict, matching the `defaultdict` behaviour. -/
def Store := List (String × FieldMap)
deriving DecidableEq, Repr

/-- Read one path's field-map (a missing path reads as empty). -/
def storeGet (s : Store) (p : String) : FieldMap :=
  match (s.find? (fun e => e.1 = p)).map (·.2) with
  | some m => m
  | none => []

/-- Write one path's field-map, keeping the path's position when it
already exists. -/
def storeSet (s : Store) (p : String) (m : FieldMap) : Store :=
  match s with
  | [] => [(p, m)]
  | (p', m') :: t => if p' = p then (p, m) :: t else (p', m') :: storeSet t p m

/-- `Store.commit_command`: resolve the store path; absent path is a
no-op; otherwise merge the command's serialized fields into the path's
dict. -/
def commit_command (s : Store) (c : Command) : Store :=
  match get_store_path c with
  | none => s
  | some p => storeSet s p (fmUpdate (storeGet s p) (serializeCmd c))

/-- `Store.fill_response` on a response's attribute dict: resolve the load
path of the response's command; absent path is a no-op; otherwise copy
every key of the path's dict onto the response. -/
def fill_response (s : Store) (c : Command) (attrs : FieldMap) : FieldMap :=
  match get_load_path c with
  | none => attrs
  | some p => fmUpdate attrs (storeGet s p)

/-- A default-constructed command instance (`cmd()`), as used by the
seeding loops: its serialized fields are the attr defaults. -/
def defaultCommand (id : CmdId) : Command := { id := id, fields := (cmdMeta id).dfields }

/-- `setdefault` of one key. -/
def fmSetDefault (m : FieldMap) (k : String) (v : Value) : FieldMap :=
  match fmGet m k with
  | some _ => m
  | none => fmSet m k v

/-- First seeding loop of `Store.__init__`: for every registered command,
apply its `store_value` entries with `setdefault` at its store path. -/
def seedStoreValues (s : Store) : Store :=
  ALL_COMMANDS.foldl
    (fun acc id =>
      match get_store_path (defaultCommand id) with
      | none => acc
      | some p =>
        match (cmdMeta id).store_value with
        | none => acc
        | some sv =>
          storeSet acc p (sv.foldl (fun m kv => fmSetDefault m kv.1 kv.2) (storeGet acc p)))
    s

/-- `lx200/responses/defaults.py`: `COMMAND_DEFAULT_MAP` in insertion
order. -/
def COMMAND_DEFAULT_MAP : List (CmdId × FieldMap) :=
  [(CmdId.GetBrowseBrighterMagnitudeLimit, [("value", VInt 10)]),
   (CmdId.GetBrowseFaintMagnitudeLimit, [("value", VInt 0)]),
   (CmdId.GetUTCOffsetTime, [("value", VInt 0)]),
   (CmdId.GetLowerLimit, [("value", VInt 0)]),
   (CmdId.GetHighLimit, [("value", VInt 110)]),
   (CmdId.GetAlignmentMenuEntry0, [("value", VStr "Menu0")]),
   (CmdId.GetAlignmentMenuEntry1, [("value", VStr "Menu1")]),
   (CmdId.GetAlignmentMenuEntry2, [("value", VStr "Menu2")]),
   (CmdId.GetTrackingRate, [("value", VFloat 60 1)]),
   (CmdId.SelectSiderealTrackingRate, [("value", VStr "SIDEREAL")]),
   (CmdId.QueryFocuserBusyStatus, [("value", VBool false)]),
   (CmdId.GetSite1Name, [("value", VStr "SI1")]),
   (CmdId.GetSite2Name, [("value", VStr "SI2")]),
   (CmdId.GetSite3Name, [("value", VStr "SI3")]),
   (CmdId.GetSite4Name, [("value", VStr "SI4")]),
   (CmdId.SelectSite, [("value", VInt 1)]),
   (CmdId.GetClockFormat, [("value", VBool true)]),
   (CmdId.SetDSTEnabled, [("value", VBool false)])]

/-- `defaults.for_command`. -/
def defaultsForCommand (id : CmdId) : FieldMap :=
  match (COMMAND_DEFAULT_MAP.find? (fun e => e.1 = id)).map (·.2) with
  | some m => m
  | none => []

/-- Second seeding loop of `Store.__init__`: `dict.update` the per-command
defaults at each command's store path. -/
def seedResponseDefaults (s : Store) : Store :=
  COMMAND_DEFAULT_MAP.foldl
    (fun acc e =>
      match get_store_path (defaultCommand e.1) with
      | none => acc
      | some p => storeSet acc p (fmUpdate (storeGet acc p) e.2))
    s

/-- The empty store (`defaultdict`: every path reads as the empty dict). -/
def emptyStore : Store := []

/-- `Store(seed_from_defaults=True)`. -/
def defaultStore : Store := seedResponseDefaults (seedStoreValues emptyStore)

/-! ### The response catalog (`lx200/responses/responses.py`) -/

/-- One constructor per response class.  Note three classes in the source
declare `attr.ib` fields without an `attr.s` decorator
(`LowPrecisionDMSResponse`, `HighPrecisionToggle`, `SetBaudRate`): those
class-level declarations never become instance attributes, so instances
keep the parent's defaults — mirrored below in `classDefaults`. -/
inductive RespClass where
  | DMSResponse
  | HMSResponse
  | EmptyResponse
  | BooleanResponse
  | SetTrackingRate
  | GetTrackingRate
  | GetHomeData
  | SetHandboxDate
  | SlewToTargetAltAz
  | ACK
  | SyncDatabase
  | DistanceBars
  | GetAlignmentMenuEntry
  | GetSiteName
  | GetLocalTime
  | GetFirmwareDate
  | GetFirmwareNumber
  | SignedFloatResponse
  | DateResponse
  | GetClockFormat
  | GetSelenographicCoordinate
  | GetFindFieldDiameter
  | LowPrecisionDMSResponse
  | GetDeepskySearchString
  | GetAlignmentStatus
  | GetProductName
  | HighPrecisionToggle
  | SlewToTarget
  | SetBaudRate
  | SetBrighterLimit
  | GetHighLimit
  | GetLargerSizeLimit
  | GetMinimumQualityForFind
  | GetSensorOffsets
  | QueryHomeStatus
deriving DecidableEq, Repr

/-- The attr defaults of each response class: every attribute an instance
starts with (`BaseResponse` contributes `value`, `suffix` and
`new_line`). -/
def classDefaults : RespClass → FieldMap
  | .DMSResponse =>
    [("value", VNone), ("suffix", VStr "#"), ("new_line", VBool false),
     ("high_precision", VBool true), ("degrees", VInt 0),
     ("degrees_separator", VStr ":"), ("minutes", VInt 0),
     ("minutes_separator", VStr ":"), ("seconds", VInt 0)]
  | .LowPrecisionDMSResponse =>
    -- no attr.s on the subclass: the high_precision=False declaration is
    -- inert and instances get DMSResponse's defaults
    [("value", VNone), ("suffix", VStr "#"), ("new_line", VBool false),
     ("high_precision", VBool true), ("degrees", VInt 0),
     ("degrees_separator", VStr ":"), ("minutes", VInt 0),
     ("minutes_separator", VStr ":"), ("seconds", VInt 0)]
  | .HMSResponse =>
    [("value", VNone), ("suffix", VStr "#"), ("new_line", VBool false),
     ("high_precision", VBool true), ("hours", VInt 0),
     ("hours_separator", VStr ":"), ("minutes", VInt 0),
     ("minutes_separator", VStr ":"), ("seconds", VInt 0)]
  | .EmptyResponse =>
    [("value", VStr ""), ("suffix", VStr "#"), ("new_line", VBool false)]
  | .BooleanResponse =>
    [("value", VBool true), ("suffix", VStr ""), ("new_line", VBool false),
     ("output_true", VStr "1"), ("output_false", VStr "0")]
  | .SetTrackingRate =>
    [("value", VBool true), ("suffix", VStr ""), ("new_line", VBool false),
     ("output_true", VStr "2"), ("output_false", VStr "0")]
  | .GetTrackingRate =>
    [("value", VInt 60), ("suffix", VStr "#"), ("new_line", VBool false)]
  | .GetHomeData =>
    [("value", VNone), ("suffix", VStr "#"), ("new_line", VBool false),
     ("axis_1", VInt 0), ("axis_2", VInt 0)]
  | .SetHandboxDate =>
    [("value", VBool true), ("suffix", VStr ""), ("new_line", VBool false),
     ("output_true", VStr "1Updating  Planetary Data#                       #"),
     ("output_false", VStr "0")]
  | .SlewToTargetAltAz =>
    [("value", VBool true), ("suffix", VStr ""), ("new_line", VBool false),
     ("output_true", VStr "0"), ("output_false", VStr "1")]
  | .ACK =>
    [("value", VStr "A"), ("suffix", VStr ""), ("new_line", VBool false)]
  | .SyncDatabase =>
    [("value", VStr " M31 EX GAL MAG 3.5 SZ178.0\x27"), ("suffix", VStr "#"),
     ("new_line", VBool false)]
  | .DistanceBars =>
    [("value", VInt 0), ("suffix", VStr ""), ("new_line", VBool false)]
  | .GetAlignmentMenuEntry =>
    [("value", VStr "The Menu Entry (legacy command)"), ("suffix", VStr "#"),
     ("new_line", VBool false)]
  | .GetSiteName =>
    [("value", VStr "TheSiteName"), ("suffix", VStr "#"), ("new_line", VBool false)]
  | .GetLocalTime =>
    [("value", VNone), ("suffix", VStr "#"), ("new_line", VBool false),
     ("hours", VInt 10), ("minutes", VInt 33), ("seconds", VInt 34)]
  | .GetFirmwareDate =>
    [("value", VNone), ("suffix", VStr "#"), ("new_line", VBool false),
     ("year", VInt 1999), ("month", VInt 12), ("day", VInt 31)]
  | .GetFirmwareNumber =>
    [("value", VNone), ("suffix", VStr "#"), ("new_line", VBool false),
     ("major", VInt 42), ("minor", VInt 0)]
  | .SignedFloatResponse =>
    [("value", VInt 0), ("suffix", VStr "#"), ("new_line", VBool false)]
  | .DateResponse =>
    [("value", VNone), ("suffix", VStr "#"), ("new_line", VBool false),
     ("year", VInt 13), ("month", VInt 12), ("day", VInt 11)]
  | .GetClockFormat =>
    [("value", VBool true), ("suffix", VStr "#"), ("new_line", VBool false)]
  | .GetSelenographicCoordinate =>
    [("value", VNone), ("suffix", VStr "#"), ("new_line", VBool false),
     ("degrees", VInt 99), ("minutes", VInt 99)]
  | .GetFindFieldDiameter =>
    [("value", VStr ""), ("suffix", VStr "#"), ("new_line", VBool false)]
  | .GetDeepskySearchString =>
    [("value", VStr "gpdco"), ("suffix", VStr "#"), ("new_line", VBool false)]
  | .GetAlignmentStatus =>
    [("value", VNone), ("suffix", VStr "#"), ("new_line", VBool false),
     ("mount", VStr "P"), ("is_tracking", VBool false), ("alignment", VInt 0)]
  | .GetProductName =>
    [("value", VStr "python-lx200 implementation"), ("suffix", VStr "#"),
     ("new_line", VBool false)]
  | .HighPrecisionToggle =>
    -- no attr.s on the subclass: instances keep BooleanResponse's outputs
    [("value", VBool true), ("suffix", VStr ""), ("new_line", VBool false),
     ("output_true", VStr "1"), ("output_false", VStr "0")]
  | .SlewToTarget =>
    [("value", VStr "0"), ("suffix", VStr ""), ("new_line", VBool false)]
  | .SetBaudRate =>
    -- no attr.s on the subclass: instances keep BaseResponse's defaults
    [("value", VStr ""), ("suffix", VStr "#"), ("new_line", VBool false)]
  | .SetBrighterLimit =>
    [("value", VBool true), ("suffix", VStr ""), ("new_line", VBool false),
     ("output_true", VStr "0"), ("output_false", VStr "1")]
  | .GetHighLimit =>
    [("value", VInt 0), ("suffix", VStr "#"), ("new_line", VBool false)]
  | .GetLargerSizeLimit =>
    [("value", VInt 123), ("suffix", VStr "#"), ("new_line", VBool false)]
  | .GetMinimumQualityForFind =>
    [("value", VStr "GD"), ("suffix", VStr "#"), ("new_line", VBool false)]
  | .GetSensorOffsets =>
    [("value", VNone), ("suffix", VStr "#"), ("new_line", VBool false),
     ("az_error", VInt 0), ("el_error", VInt 0), ("home_offset", VInt 0)]
  | .QueryHomeStatus =>
    [("value", VInt 1), ("suffix", VStr "#"), ("new_line", VBool false)]

/-- `COMMAND_RESPONSE_MAP`: command class to response class, from the
`map_response` decorators.  Unmapped commands give `none` (the source
raises `KeyError` for them). -/
def respClassFor : CmdId → Option RespClass
  | .GetAltitude | .GetDeclination | .GetSelectedObjectDeclination
  | .GetSelectedTargetDeclination | .GetDistanceToMeridian | .GetAzimuth =>
    some RespClass.DMSResponse
  | .GetRightAscencion | .GetSelectedTargetRightAscencion
  | .GetSelectedObjectRightAscencion | .GetSiderealTime =>
    some RespClass.HMSResponse
  | .EOT | .LandAlignment | .PolarAlignment | .AltAzAlignment
  | .SetAltitudeAntiBacklash | .SetDeclinationAntiBacklash
  | .SetAzimuthAntiBacklash | .SetRightAscentionAntiBacklash
  | .IncreaseReticleBrightness | .DecreaseReticleBrightness
  | .SetReticleFlashRate | .SetReticleFlashDutyCycle | .SyncSelenographic
  | .CalibrateHomePosition | .SeekHomePosition | .Sleep | .Park
  | .SetParkPosition | .WakeUp
  | .ToggleTimeFormat | .Initialize | .PrecisionPositionToggle
  | .GuideEast | .GuideNorth | .GuideWest | .GuideSouth
  | .MoveEast | .MoveNorth | .MoveWest | .MoveSouth
  | .HaltAll | .HaltEastward | .HaltNorthwawrd | .HaltWestward | .HaltSouthward
  | .SetSlewRateToCentering | .SetSlewRateToFinding | .SetSlewRateToGuiding
  | .SetSlewRateToMax
  | .SetRightAscentionSlewRate | .SetDeclinationSlewRate | .SetAltitudeSlewRate
  | .SetAzimuthSlewRate | .SetGuideRate
  | .EnableFlexureCorrection | .DisableFlexureCorrection | .SetDSTEnabled
  | .StepQualityLimit | .IncrementManualRate | .DecrementManualRate
  | .EnableAltitudePEC | .EnableAzimuthPEC | .EnableRightAscencionPEC
  | .DisableAltitudePEC | .DisableAzimuthPEC | .DisableRightAscencionPEC
  | .SetLunarTracking | .SelectSiderealTrackingRate | .SelectCustomTrackingRate
  | .SelectSolarTrackingRate =>
    some RespClass.EmptyResponse
  | .AutomaticAlignment | .GetDailySavingsTimeSettings
  | .SetTargetAltitude | .SetTargetDeclination | .SetTargetRightAscencion
  | .SetTargetAzimuth
  | .SetTargetSelenographicLatitude | .SetTargetSelenographicLongitude
  | .SetFaintMagnitude | .SetFieldDiameter | .SetSiteLongitude | .SetSiteLatitude
  | .SetUTCOffset | .SetMaximumElevation | .SetSmallestObjectSize
  | .SetLargestObjectSize
  | .SetLocalTime | .SetLocalSiderealTime | .BypassDSTEntry
  | .SetSite1Name | .SetSite2Name | .SetSite3Name | .SetSite4Name
  | .SetObjectSelectionString
  | .SetLowestElevation | .SetBacklashValues | .SetHomeData | .SetSensorOffsets
  | .SetSlewRate =>
    some RespClass.BooleanResponse
  | .SetTrackingRate => some RespClass.SetTrackingRate
  | .GetTrackingRate => some RespClass.GetTrackingRate
  | .GetHomeData | .GetBacklashValues => some RespClass.GetHomeData
  | .SetHandboxDate => some RespClass.SetHandboxDate
  | .SlewToTargetAltAz => some RespClass.SlewToTargetAltAz
  | .ACK => some RespClass.ACK
  | .SyncDatabase => some RespClass.SyncDatabase
  | .DistanceBars => some RespClass.DistanceBars
  | .GetAlignmentMenuEntry0 | .GetAlignmentMenuEntry1 | .GetAlignmentMenuEntry2 =>
    some RespClass.GetAlignmentMenuEntry
  | .GetSite1Name | .GetSite2Name | .GetSite3Name | .GetSite4Name =>
    some RespClass.GetSiteName
  | .GetLocalTime12H | .GetLocalTime24H | .GetFirmwareTime =>
    some RespClass.GetLocalTime
  | .GetFirmwareDate => some RespClass.GetFirmwareDate
  | .GetFirmwareNumber => some RespClass.GetFirmwareNumber
  | .GetBrowseBrighterMagnitudeLimit | .GetBrowseFaintMagnitudeLimit
  | .GetUTCOffsetTime =>
    some RespClass.SignedFloatResponse
  | .GetDate => some RespClass.DateResponse
  | .GetClockFormat => some RespClass.GetClockFormat
  | .GetSelenographicLatitude | .GetSelenographicLongitude =>
    some RespClass.GetSelenographicCoordinate
  | .GetFindFieldDiameter => some RespClass.GetFindFieldDiameter
  | .GetSiteLongitude | .GetSiteLatitude => some RespClass.LowPrecisionDMSResponse
  | .GetDeepskySearchString => some RespClass.GetDeepskySearchString
  | .GetAlignmentStatus => some RespClass.GetAlignmentStatus
  | .GetProductName => some RespClass.GetProductName
  | .HighPrecisionToggle => some RespClass.HighPrecisionToggle
  | .SlewToTarget | .SlewToTargetObject => some RespClass.SlewToTarget
  | .SetBaudRate => some RespClass.SetBaudRate
  | .SetBrighterLimit => some RespClass.SetBrighterLimit
  | .GetHighLimit | .GetLowerLimit => some RespClass.GetHighLimit
  | .GetLargerSizeLimit | .GetSmallerSizeLimit => some RespClass.GetLargerSizeLimit
  | .GetMinimumQualityForFind => some RespClass.GetMinimumQualityForFind
  | .GetSensorOffsets => some RespClass.GetSensorOffsets
  | .QueryHomeStatus => some RespClass.QueryHomeStatus
  | _ => none

/-- Read a response attribute (after construction every attribute a
formatter reads is present). -/
def rAttr (a : FieldMap) (k : String) : Value :=
  match fmGet a k with
  | some v => v
  | none => VNone

/-- Python `'+d'` int format: mandatory sign, no padding. -/
def fmtPlusD (n : Int) : String :=
  (if n < 0 then "-" else "+") ++ toString n.natAbs

/-- The `format_value` method of each response class, on the response's
attribute dict.  Formatting errors (unsupported operand types, the
DistanceBars range check) surface as `Except.error`, mirroring the raised
exceptions. -/
def format_value (cls : RespClass) (a : FieldMap) : Except String String :=
  match cls with
  | .DMSResponse | .LowPrecisionDMSResponse => do
    let d ← valAsInt (rAttr a "degrees")
    let base := fmtSignedPadInt d 3 ++ pyStr (rAttr a "degrees_separator")
      ++ pyStr (rAttr a "minutes")
    if pyTruthy (rAttr a "high_precision") then
      let s ← valAsNum (rAttr a "seconds")
      pure (base ++ pyStr (rAttr a "minutes_separator") ++ fmtFixed s.1 s.2 0 2 false)
    else
      pure base
  | .HMSResponse => do
    let h ← valAsInt (rAttr a "hours")
    if pyTruthy (rAttr a "high_precision") then
      let s ← valAsNum (rAttr a "seconds")
      pure (fmtSignedPadInt h 3 ++ pyStr (rAttr a "hours_separator")
        ++ pyStr (rAttr a "minutes") ++ pyStr (rAttr a "minutes_separator")
        ++ fmtFixed s.1 s.2 0 2 false)
    else do
      -- minutes_frac = minutes + seconds / 60.0
      let m ← valAsNum (rAttr a "minutes")
      let s ← valAsNum (rAttr a "seconds")
      pure (fmtSignedPadInt h 3 ++ pyStr (rAttr a "hours_separator")
        ++ fmtFixed (m.1 * (s.2 * 60) + s.1 * m.2) (m.2 * (s.2 * 60)) 1 4 false)
  | .BooleanResponse | .SetTrackingRate | .SetHandboxDate | .SlewToTargetAltAz
  | .HighPrecisionToggle | .SetBrighterLimit =>
    if pyTruthy (rAttr a "value") then pure (pyStr (rAttr a "output_true"))
    else pure (pyStr (rAttr a "output_false"))
  | .GetTrackingRate => do
    let v ← valAsNum (rAttr a "value")
    pure (fmtFixed v.1 v.2 1 4 false)
  | .GetHomeData =>
    pure (pyStr (rAttr a "axis_1") ++ " " ++ pyStr (rAttr a "axis_2"))
  | .DistanceBars =>
    -- `if value not in range(6): raise ValueError(...)` then pipes + '#'
    match rAttr a "value" with
    | VInt n =>
      if 0 ≤ n ∧ n < 6 then
        pure (String.mk (List.replicate n.toNat '|') ++ "#")
      else Except.error "Value for DistanceBars is not in range 0..6"
    | VBool b =>
      -- bool is an int in Python: True is 1, False is 0, both in range
      pure ((if b then "|" else "") ++ "#")
    | VFloat num den =>
      if (Int.emod num den = 0 ∧ 0 ≤ num ∧ num < 6 * den) then
        Except.error "cannot multiply sequence by non-int"
      else Except.error "Value for DistanceBars is not in range 0..6"
    | _ => Except.error "Value for DistanceBars is not in range 0..6"
  | .GetLocalTime =>
    pure (pyStr (rAttr a "hours") ++ ":" ++ pyStr (rAttr a "minutes")
      ++ ":" ++ pyStr (rAttr a "seconds"))
  | .GetFirmwareDate =>
    pure (pyStr (rAttr a "month") ++ " " ++ pyStr (rAttr a "day")
      ++ " " ++ pyStr (rAttr a "year"))
  | .GetFirmwareNumber =>
    pure (pyStr (rAttr a "major") ++ "." ++ pyStr (rAttr a "minor"))
  | .SignedFloatResponse => do
    let v ← valAsNum (rAttr a "value")
    pure (fmtFixed v.1 v.2 1 5 true)
  | .DateResponse => do
    let m ← valAsInt (rAttr a "month")
    let d ← valAsInt (rAttr a "day")
    let y ← valAsInt (rAttr a "year")
    pure (fmtPadInt m 2 ++ "/" ++ fmtPadInt d 2 ++ "/" ++ fmtPadInt (y % 100) 2)
  | .GetClockFormat =>
    if pyTruthy (rAttr a "value") then pure "24" else pure "12"
  | .GetSelenographicCoordinate => do
    let d ← valAsInt (rAttr a "degrees")
    let m ← valAsInt (rAttr a "minutes")
    pure (fmtPlusD d ++ "*" ++ toString m)
  | .GetAlignmentStatus =>
    pure (pyStr (rAttr a "mount")
      ++ (if pyTruthy (rAttr a "is_tracking") then "T" else "N")
      ++ pyStr (rAttr a "alignment"))
  | .SetBaudRate => pure "1"
  | .GetHighLimit => do
    let n ← pyIntCoerce (rAttr a "value")
    pure (fmtSignedPadInt n 3 ++ "*")
  | _ => pure (pyStr (rAttr a "value"))

/-- `str(response)`: `format_value(value)` followed by the suffix (and a
newline when `new_line` is set); `EmptyResponse.__str__` is the empty
string. -/
def respToString (cls : RespClass) (a : FieldMap) : Except String String :=
  match cls with
  | .EmptyResponse => Except.ok ""
  | _ => do
    let v ← format_value cls a
    let sfx := pyStr (rAttr a "suffix")
    pure (v ++ sfx ++ (if pyTruthy (rAttr a "new_line") then "\n" else ""))

/-- `responses.for_command`: look the response class up (KeyError when
unmapped) and construct it with the per-command default data applied over
the class attr defaults. -/
def for_command (c : Command) : Except String (RespClass × FieldMap) :=
  match respClassFor c.id with
  | none => Except.error "Response not found for command"
  | some cls => Except.ok (cls, fmUpdate (classDefaults cls) (defaultsForCommand c.id))

/-! ### The frame parser (`lx200/parser.py`) -/

inductive PState where
  | IDLE
  | PARSING
deriving DecidableEq, Repr

/-- Parser state: two-state machine, character buffer, output deque
(head = most recently `appendleft`-ed command), `maxlen`. -/
structure ParserState where
  state : PState
  buffer : List Char
  output : List Command
  maxlen : Nat
deriving DecidableEq, Repr

/-- `Parser(maxlen)`. -/
def parserInit (maxlen : Nat) : ParserState :=
  { state := PState.IDLE, buffer := [], output := [], maxlen := maxlen }

/-- `Parser.feed_one`: in IDLE, `\x06` and `\x04` emit ACK/EOT, `:` opens
a frame, anything else is dropped; in PARSING, `#` decodes and emits the
buffer, any other byte is appended while the buffer holds fewer than
`maxlen` characters, and otherwise the frame is dropped and the parser
reset. -/
def feed_one (p : ParserState) (c : Char) : ParserState :=
  match p.state with
  | PState.IDLE =>
    if c = Char.ofNat 6 then
      { p with output := cmdFromData CmdId.ACK [] :: p.output }
    else if c = Char.ofNat 4 then
      { p with output := cmdFromData CmdId.EOT [] :: p.output }
    else if c = ':' then
      { p with state := PState.PARSING }
    else p
  | PState.PARSING =>
    if c = '#' then
      { p with output := lxDecode (String.mk p.buffer) :: p.output,
               buffer := [], state := PState.IDLE }
    else if p.buffer.length < p.maxlen then
      { p with buffer := p.buffer ++ [c] }
    else
      { p with buffer := [], state := PState.IDLE }

/-- `Parser.feed`: process a character sequence one character at a time. -/
def feed (p : ParserState) (data : List Char) : ParserState :=
  data.foldl feed_one p

/-! ### The dispatcher (`examples/tcpserver.py`, `data_received`) -/

/-- Handle one drained command: commit it to the store, look up and build
its response, fill it from the store, serialize it.  A raised exception
(unmapped command, formatter error) aborts the drain. -/
def dispatchOne (s : Store) (c : Command) : Except String (String × Store) :=
  let s' := commit_command s c
  match for_command c with
  | Except.error e => Except.error e
  | Except.ok (cls, attrs0) =>
    let attrs := fill_response s' c attrs0
    match respToString cls attrs with
    | Except.error e => Except.error e
    | Except.ok out => Except.ok (out, s')

/-- Drain a command list in order, threading the store. -/
def dispatchAll (s : Store) : List Command → Except String (List String × Store)
  | [] => Except.ok ([], s)
  | c :: t =>
    match dispatchOne s c with
    | Except.error e => Except.error e
    | Except.ok (o, s') =>
      match dispatchAll s' t with
      | Except.error e => Except.error e
      | Except.ok (os, s'') => Except.ok (o :: os, s'')

/-- `LX200Protocol.data_received`: feed the whole chunk to a fresh default
parser, then drain the output deque oldest-first (`output.pop()` takes
from the end opposite insertion), committing and answering each command. -/
def data_received (s : Store) (input : String) : Except String (List String × Store) :=
  let p := feed (parserInit 32) input.data
  dispatchAll s p.output.reverse

/-- The responses produced for `input` against a store (dropping the final
store). -/
def dispatchResponses (s : Store) (input : String) : Except String (List String) :=
  match data_received s input with
  | Except.error e => Except.error e
  | Except.ok (os, _) => Except.ok os

/-- The store left behind by `data_received` (unchanged when the drain
raised, which no input of the theorems below does). -/
def dispatchFinalStore (s : Store) (input : String) : Store :=
  match data_received s input with
  | Except.error _ => s
  | Except.ok (_, s2) => s2

deriving instance DecidableEq for Except

/-! ### Dictionary lemmas -/

theorem fmGet_cons (a : String) (b : Value) (t : FieldMap) (k : String) :
    fmGet ((a, b) :: t) k = if a = k then some b else fmGet t k := by
  by_cases h : a = k <;> simp [fmGet, List.find?, h]

theorem fmSet_cons (a : String) (b : Value) (t : FieldMap) (k : String) (v : Value) :
    fmSet ((a, b) :: t) k v = if a = k then (k, v) :: t else (a, b) :: fmSet t k v := rfl

theorem fmGet_fmSet_self (m : FieldMap) (k : String) (v : Value) :
    fmGet (fmSet m k v) k = some v := by
  induction m with
  | nil => simp [fmSet, fmGet, List.find?]
  | cons hd t ih =>
    rw [show hd = (hd.1, hd.2) from rfl, fmSet_cons]
    by_cases hk : hd.1 = k
    · rw [if_pos hk, fmGet_cons, if_pos rfl]
    · rw [if_neg hk, fmGet_cons, if_neg hk]
      exact ih

theorem fmGet_fmSet_other (m : FieldMap) (k k' : String) (v : Value)
    (h : k' ≠ k) : fmGet (fmSet m k' v) k = fmGet m k := by
  induction m with
  | nil => simp [fmSet, fmGet, List.find?, h]
  | cons hd t ih =>
    rw [show hd = (hd.1, hd.2) from rfl, fmSet_cons]
    by_cases hk : hd.1 = k'
    · rw [if_pos hk, fmGet_cons, if_neg h, fmGet_cons, if_neg (hk ▸ h)]
    · rw [if_neg hk, fmGet_cons, fmGet_cons]
      by_cases hk2 : hd.1 = k
      · rw [if_pos hk2, if_pos hk2]
      · rw [if_neg hk2, if_neg hk2]
        exact ih

theorem fmGet_fmUpdate_not_mem (m data : FieldMap) (k : String)
    (h : k ∉ data.map Prod.fst) :
    fmGet (fmUpdate m data) k = fmGet m k := by
  induction data generalizing m with
  | nil => rfl
  | cons hd t ih =>
    have h1 : k ∉ t.map Prod.fst := by
      intro hc
      exact h (by simp [hc])
    have h2 : hd.1 ≠ k := by
      intro hc
      exact h (by simp [hc])
    calc fmGet (fmUpdate m (hd :: t)) k
        = fmGet (fmUpdate (fmSet m hd.1 hd.2) t) k := rfl
      _ = fmGet (fmSet m hd.1 hd.2) k := ih _ h1
      _ = fmGet m k := fmGet_fmSet_other _ _ _ _ h2

theorem fmGet_fmUpdate_mem (m data : FieldMap) (k : String) (v : Value)
    (hnd : (data.map Prod.fst).Nodup) (h : fmGet data k = some v) :
    fmGet (fmUpdate m data) k = some v := by
  induction data generalizing m with
  | nil => simp [fmGet, List.find?] at h
  | cons hd t ih =>
    rw [show hd = (hd.1, hd.2) from rfl] at h
    rw [fmGet_cons] at h
    by_cases hk : hd.1 = k
    · rw [if_pos hk] at h
      have hnot : k ∉ t.map Prod.fst := by
        simp only [List.map_cons, List.nodup_cons] at hnd
        exact hk ▸ hnd.1
      calc fmGet (fmUpdate m (hd :: t)) k
          = fmGet (fmUpdate (fmSet m hd.1 hd.2) t) k := rfl
        _ = fmGet (fmSet m hd.1 hd.2) k := fmGet_fmUpdate_not_mem _ _ _ hnot
        _ = some hd.2 := by rw [hk]; exact fmGet_fmSet_self _ _ _
        _ = some v := by rw [Option.some_inj.mpr (Option.some_inj.mp h)]
    · rw [if_neg hk] at h
      have hnd2 : (t.map Prod.fst).Nodup := by
        simp only [List.map_cons, List.nodup_cons] at hnd
        exact hnd.2
      exact ih _ hnd2 h

theorem storeGet_storeSet_self (s : Store) (p : String) (m : FieldMap) :
    storeGet (storeSet s p m) p = m := by
  induction s with
  | nil => simp [storeSet, storeGet, List.find?]
  | cons h t ih =>
    by_cases hp : h.1 = p
    · simp [storeSet, hp, storeGet, List.find?]
    · simpa [storeSet, hp, storeGet, List.find?] using ih

/-! ### Parser lemmas -/

theorem feed_append (p : ParserState) (a b : List Char) :
    feed p (a ++ b) = feed (feed p a) b :=
  List.foldl_append _ _ _ _

theorem feed_single (p : ParserState) (c : Char) :
    feed p [c] = feed_one p c := rfl

/-- Feeding frame characters that fit into the buffer just accumulates
them. -/
theorem parsing_fill (ml : Nat) (out : List Command) (buf cs : List Char)
    (hnh : '#' ∉ cs) (hfit : buf.length + cs.length ≤ ml) :
    feed ⟨PState.PARSING, buf, out, ml⟩ cs = ⟨PState.PARSING, buf ++ cs, out, ml⟩ := by
  induction cs generalizing buf with
  | nil => simp [feed]
  | cons c t ih =>
    have hc : c ≠ '#' := by
      intro hc
      exact hnh (hc ▸ List.mem_cons_self c t)
    have hlt : buf.length < ml := by
      simp only [List.length_cons] at hfit
      omega
    have hstep : feed_one ⟨PState.PARSING, buf, out, ml⟩ c
        = ⟨PState.PARSING, buf ++ [c], out, ml⟩ := by
      simp [feed_one, hc, hlt]
    have htail : '#' ∉ t := fun hm => hnh (List.mem_cons_of_mem c hm)
    have hfit2 : (buf ++ [c]).length + t.length ≤ ml := by
      simp only [List.length_append, List.length_cons, List.length_nil] at hfit ⊢
      omega
    calc feed ⟨PState.PARSING, buf, out, ml⟩ (c :: t)
        = feed (feed_one ⟨PState.PARSING, buf, out, ml⟩ c) t := rfl
      _ = feed ⟨PState.PARSING, buf ++ [c], out, ml⟩ t := by rw [hstep]
      _ = ⟨PState.PARSING, (buf ++ [c]) ++ t, out, ml⟩ := ih _ htail hfit2
      _ = ⟨PState.PARSING, buf ++ c :: t, out, ml⟩ := by simp

/-- A full-buffer frame byte other than the terminator drops the frame. -/
theorem parsing_overflow (ml : Nat) (out : List Command) (buf : List Char)
    (c : Char) (hc : c ≠ '#') (hfull : ¬ buf.length < ml) :
    feed_one ⟨PState.PARSING, buf, out, ml⟩ c = ⟨PState.IDLE, [], out, ml⟩ := by
  simp [feed_one, hc, hfull]

/-- Bytes that are not `:`, ACK or EOT are silently discarded in IDLE. -/
theorem idle_skip (ml : Nat) (out : List Command) (cs : List Char)
    (h : ∀ c ∈ cs, c ≠ ':' ∧ c ≠ Char.ofNat 6 ∧ c ≠ Char.ofNat 4) :
    feed ⟨PState.IDLE, [], out, ml⟩ cs = ⟨PState.IDLE, [], out, ml⟩ := by
  induction cs with
  | nil => rfl
  | cons c t ih =>
    have hc := h c (List.mem_cons_self c t)
    have hstep : feed_one ⟨PState.IDLE, [], out, ml⟩ c
        = ⟨PState.IDLE, [], out, ml⟩ := by
      simp [feed_one, hc.1, hc.2.1, hc.2.2]
    calc feed ⟨PState.IDLE, [], out, ml⟩ (c :: t)
        = feed (feed_one ⟨PState.IDLE, [], out, ml⟩ c) t := rfl
      _ = feed ⟨PState.IDLE, [], out, ml⟩ t := by rw [hstep]
      _ = ⟨PState.IDLE, [], out, ml⟩ := ih (fun c hm => h c (List.mem_cons_of_mem _ hm))

/-- Invariant: an IDLE parser has an empty buffer. -/
def BufInv (p : ParserState) : Prop := p.state = PState.IDLE → p.buffer = []

theorem bufInv_step (p : ParserState) (c : Char) (h : BufInv p) :
    BufInv (feed_one p c) := by
  unfold BufInv at h ⊢
  cases hst : p.state with
  | IDLE =>
    have hb := h hst
    simp only [feed_one, hst]
    by_cases h6 : c = Char.ofNat 6
    · simp [h6, hst, hb]
    · by_cases h4 : c = Char.ofNat 4
      · simp [h6, h4, hst, hb]
      · by_cases hcol : c = ':'
        · simp [h6, h4, hcol]
        · simp [h6, h4, hcol, hst, hb]
  | PARSING =>
    simp only [feed_one, hst]
    by_cases hh : c = '#'
    · simp [hh]
    · by_cases hfit : p.buffer.length < p.maxlen
      · simp [hh, hfit, hst]
      · simp [hh, hfit]

theorem bufInv_feed (p : ParserState) (cs : List Char) (h : BufInv p) :
    BufInv (feed p cs) := by
  induction cs generalizing p with
  | nil => exact h
  | cons c t ih => exact ih _ (bufInv_step p c h)

/-- After a `#`, any parser satisfying the buffer invariant is IDLE with
an empty buffer. -/
theorem hash_resets (p : ParserState) (h : BufInv p) :
    (feed_one p '#').state = PState.IDLE ∧ (feed_one p '#').buffer = [] := by
  cases hst : p.state with
  | IDLE =>
    have hb := h hst
    constructor <;> simp [feed_one, hst, hb, show ('#' : Char) ≠ Char.ofNat 6 from by decide,
      show ('#' : Char) ≠ Char.ofNat 4 from by decide, show ('#' : Char) ≠ ':' from by decide]
  | PARSING =>
    constructor <;> simp [feed_one, hst]

/-- Helper for commits through a fixed `store_value`. -/
theorem storeGet_commit (s : Store) (c : Command) (p : String)
    (hp : get_store_path c = some p) :
    storeGet (commit_command s c) p
      = fmUpdate (storeGet s p) (serializeCmd c) := by
  unfold commit_command
  rw [hp]
  exact storeGet_storeSet_self _ _ _

/-! ### Key sets of dictionaries -/

theorem mem_keys_fmSet (m : FieldMap) (k x : String) (v : Value) :
    x ∈ (fmSet m k v).map Prod.fst ↔ x ∈ m.map Prod.fst ∨ x = k := by
  induction m with
  | nil => simp [fmSet]
  | cons hd t ih =>
    rw [show hd = (hd.1, hd.2) from rfl, fmSet_cons]
    by_cases hk : hd.1 = k
    · rw [if_pos hk]
      subst hk
      simp only [List.map_cons, List.mem_cons]
      constructor
      · rintro (h | h)
        · exact Or.inr h
        · exact Or.inl (Or.inr h)
      · rintro (h | h)
        · rcases h with h | h
          · exact Or.inl h
          · exact Or.inr h
        · exact Or.inl h
    · rw [if_neg hk]
      simp only [List.map_cons, List.mem_cons, ih]
      tauto

theorem nodup_keys_fmSet (m : FieldMap) (k : String) (v : Value)
    (h : (m.map Prod.fst).Nodup) : ((fmSet m k v).map Prod.fst).Nodup := by
  induction m with
  | nil => simp [fmSet]
  | cons hd t ih =>
    rw [show hd = (hd.1, hd.2) from rfl, fmSet_cons]
    simp only [List.map_cons, List.nodup_cons] at h
    by_cases hk : hd.1 = k
    · rw [if_pos hk]
      subst hk
      simp only [List.map_cons, List.nodup_cons]
      exact h
    · rw [if_neg hk]
      simp only [List.map_cons, List.nodup_cons]
      refine ⟨?_, ih h.2⟩
      intro hc
      rcases (mem_keys_fmSet t k hd.1 v).mp hc with hmem | heq
      · exact h.1 hmem
      · exact hk heq

theorem nodup_keys_fmUpdate (m data : FieldMap)
    (h : (m.map Prod.fst).Nodup) : ((fmUpdate m data).map Prod.fst).Nodup := by
  induction data generalizing m with
  | nil => exact h
  | cons hd t ih => exact ih _ (nodup_keys_fmSet m hd.1 hd.2 h)

/-! ### Well-formed message streams (for the ordering guarantee) -/

/-- One unit of well-formed input: a framed payload, or one of the two
unframed single-byte commands. -/
inductive Msg where
  | frame (payload : List Char)
  | ack
  | eot
deriving DecidableEq, Repr

/-- The bytes a message occupies on the wire. -/
def renderMsg : Msg → List Char
  | Msg.frame p => ':' :: p ++ ['#']
  | Msg.ack => [Char.ofNat 6]
  | Msg.eot => [Char.ofNat 4]

/-- The command the parser decodes for a message. -/
def decodeMsg : Msg → Command
  | Msg.frame p => lxDecode (String.mk p)
  | Msg.ack => cmdFromData CmdId.ACK []
  | Msg.eot => cmdFromData CmdId.EOT []

/-- A frame is well formed when its payload has no `#` and fits the
parser's `maxlen`; ACK and EOT always are. -/
def wfMsg (ml : Nat) : Msg → Prop
  | Msg.frame p => '#' ∉ p ∧ p.length ≤ ml
  | Msg.ack => True
  | Msg.eot => True

instance (ml : Nat) (m : Msg) : Decidable (wfMsg ml m) :=
  match m with
  | Msg.frame p => inferInstanceAs (Decidable ('#' ∉ p ∧ p.length ≤ ml))
  | Msg.ack => inferInstanceAs (Decidable True)
  | Msg.eot => inferInstanceAs (Decidable True)

/-- Feeding one well-formed message from IDLE pushes exactly its decoded
command onto the output. -/
theorem feed_renderMsg (ml : Nat) (out : List Command) (m : Msg)
    (hwf : wfMsg ml m) :
    feed ⟨PState.IDLE, [], out, ml⟩ (renderMsg m)
      = ⟨PState.IDLE, [], decodeMsg m :: out, ml⟩ := by
  cases m with
  | ack =>
    show feed_one ⟨PState.IDLE, [], out, ml⟩ (Char.ofNat 6) = _
    simp [feed_one, decodeMsg]
  | eot =>
    show feed_one ⟨PState.IDLE, [], out, ml⟩ (Char.ofNat 4) = _
    simp [feed_one, decodeMsg,
      show Char.ofNat 4 ≠ Char.ofNat 6 from by decide]
  | frame p =>
    obtain ⟨hnh, hlen⟩ := hwf
    have hcolon : feed_one ⟨PState.IDLE, [], out, ml⟩ ':'
        = ⟨PState.PARSING, [], out, ml⟩ := by
      simp [feed_one,
        show (':' : Char) ≠ Char.ofNat 6 from by decide,
        show (':' : Char) ≠ Char.ofNat 4 from by decide]
    have hfill : feed ⟨PState.PARSING, [], out, ml⟩ p
        = ⟨PState.PARSING, p, out, ml⟩ := by
      have := parsing_fill ml out [] p hnh (by simpa using hlen)
      simpa using this
    have hhash : feed_one ⟨PState.PARSING, p, out, ml⟩ '#'
        = ⟨PState.IDLE, [], lxDecode (String.mk p) :: out, ml⟩ := by
      simp [feed_one]
    calc feed ⟨PState.IDLE, [], out, ml⟩ (renderMsg (Msg.frame p))
        = feed (feed_one ⟨PState.IDLE, [], out, ml⟩ ':') (p ++ ['#']) := rfl
      _ = feed ⟨PState.PARSING, [], out, ml⟩ (p ++ ['#']) := by rw [hcolon]
      _ = feed (feed ⟨PState.PARSING, [], out, ml⟩ p) ['#'] := feed_append _ _ _
      _ = feed_one ⟨PState.PARSING, p, out, ml⟩ '#' := by rw [hfill, feed_single]
      _ = ⟨PState.IDLE, [], decodeMsg (Msg.frame p) :: out, ml⟩ := hhash

/-- Feeding a stream of well-formed messages pushes their decoded
commands, newest first. -/
theorem feed_msgStream (ml : Nat) (msgs : List Msg) (out : List Command)
    (hwf : ∀ m ∈ msgs, wfMsg ml m) :
    feed ⟨PState.IDLE, [], out, ml⟩ (msgs.flatMap renderMsg)
      = ⟨PState.IDLE, [], (msgs.map decodeMsg).reverse ++ out, ml⟩ := by
  induction msgs generalizing out with
  | nil => rfl
  | cons m t ih =>
    have h1 := feed_renderMsg ml out m (hwf m (List.mem_cons_self m t))
    have h2 := ih (decodeMsg m :: out) (fun x hx => hwf x (List.mem_cons_of_mem m hx))
    calc feed ⟨PState.IDLE, [], out, ml⟩ ((m :: t).flatMap renderMsg)
        = feed ⟨PState.IDLE, [], out, ml⟩ (renderMsg m ++ t.flatMap renderMsg) := by
          simp [List.flatMap_cons]
      _ = feed (feed ⟨PState.IDLE, [], out, ml⟩ (renderMsg m)) (t.flatMap renderMsg) :=
          feed_append _ _ _
      _ = feed ⟨PState.IDLE, [], decodeMsg m :: out, ml⟩ (t.flatMap renderMsg) := by rw [h1]
      _ = ⟨PState.IDLE, [], (t.map decodeMsg).reverse ++ (decodeMsg m :: out), ml⟩ := h2
      _ = ⟨PState.IDLE, [], ((m :: t).map decodeMsg).reverse ++ out, ml⟩ := by simp

/-! ### Claim theorems -/

/-- C1 (counterexample): feeding `:Sr12:34:56#:GR#` to a dispatcher backed
by a default-seeded store does NOT produce `1` followed by `+12:34:56#`:
the actual responses are `1` and `+00:0:00#`, because `GR` loads
`mount.right_ascencion` (the mount's current position, still at its empty
default) while `Sr` wrote `mount.target.right_ascencion`. -/
theorem c1_counterexample_gr_reads_current_not_target :
    dispatchResponses defaultStore ":Sr12:34:56#:GR#" = Except.ok ["1", "+00:0:00#"]
    ∧ ¬ dispatchResponses defaultStore ":Sr12:34:56#:GR#" = Except.ok ["1", "+12:34:56#"] := by
  constructor
  · decide
  · decide

/-- C1 (amended): feeding `:Sr12:34:56#:GR#` to a dispatcher backed by a
default-seeded store produces exactly two responses: first the byte string
`1` (the SetTargetRightAscencion boolean success token), then the byte
string `+00:0:00#` from GetRightAscencion, whose load path
`mount.right_ascencion` still holds its empty default (the written target
lives at `mount.target.right_ascencion`). -/
theorem c1_sr_then_gr_responses :
    dispatchResponses defaultStore ":Sr12:34:56#:GR#" = Except.ok ["1", "+00:0:00#"] := by
  decide

/-- C2 (counterexample): feeding the single unframed byte `\x06` (ACK) to
a dispatcher backed by a default-seeded store does NOT produce `A`: the
store seeds `mount.alignment_mode` with `L` (the `store_value` of
`LandAlignment`, the first registered alignment command) and `fill`
overwrites the ACK response's default `A` with it. -/
theorem c2_counterexample_ack_not_a :
    dispatchResponses defaultStore "\x06" = Except.ok ["L"]
    ∧ ¬ dispatchResponses defaultStore "\x06" = Except.ok ["A"] := by
  constructor
  · decide
  · decide

/-- C2 (amended): feeding the single unframed byte `\x06` (ACK) to a
dispatcher backed by a default-seeded store produces the single-character
response `L` (the seeded alignment mode, from LandAlignment's
`store_value`), with no trailing `#`. -/
theorem c2_ack_returns_seeded_alignment :
    dispatchResponses defaultStore "\x06" = Except.ok ["L"] := by
  decide

/-- C4: in a formatted signed-DMS response the minutes field is NOT
zero-padded — `DMSResponse.format_value` interpolates the minutes with a
bare `str` conversion, so minutes value 0 prints as `0`; only the seconds
field is zero-padded to two digits and rounded.  At the failing input
(the default-valued DMS response, e.g. the reply to `:GA#` on a
default-seeded store) the code emits `+00:0:00#` where the claim requires
`+00:00:00#`. -/
theorem c4_dms_minutes_not_zero_padded :
    format_value RespClass.DMSResponse (classDefaults RespClass.DMSResponse)
      = Except.ok "+00:0:00"
    ∧ dispatchResponses defaultStore ":GA#" = Except.ok ["+00:0:00#"] := by
  constructor
  · decide
  · decide

/-- C5 (counterexample): after `:Sd-12:30:00#:Gd#` the second response is
`-12:-30:00#`, not `-12:30:00#`: the signed-DMS normalization stores
`minutes = -30`, and `DMSResponse.format_value` prints the minutes with a
bare `str` conversion, sign included. -/
theorem c5_counterexample_minutes_sign_printed :
    dispatchResponses defaultStore ":Sd-12:30:00#:Gd#" = Except.ok ["1", "-12:-30:00#"]
    ∧ ¬ dispatchResponses defaultStore ":Sd-12:30:00#:Gd#"
        = Except.ok ["1", "-12:30:00#"] := by
  constructor
  · decide
  · decide

/-- C5 (amended): feeding `:Sd-12:30:00#:Gd#` to a dispatcher backed by a
default-seeded store leaves the store's `mount.target.declination`
field-map equal to degrees -12, minutes -30, seconds 0 (minutes and
seconds negated after capture because the parsed degrees is negative), and
the second response is the byte string `-12:-30:00#` (the negated minutes
print with their sign). -/
theorem c5_sd_stores_negated_triple :
    dispatchResponses defaultStore ":Sd-12:30:00#:Gd#" = Except.ok ["1", "-12:-30:00#"]
    ∧ storeGet (dispatchFinalStore defaultStore ":Sd-12:30:00#:Gd#")
        "mount.target.declination"
      = [("degrees", VInt (-12)), ("minutes", VInt (-30)), ("seconds", VInt 0)] := by
  constructor
  · decide
  · decide

/-- C6: `DistanceBars.format_value` checks `value not in range(6)`, i.e.
it accepts exactly the integers 0..5 — emitting that many pipes and a `#`
— and raises for everything else, INCLUDING 6: the claim's closed
interval [0, 6] is off by one against the code (whose own error message
reads `is not in range 0..6`).  Formatting the failing input 6 raises
instead of emitting six pipes. -/
theorem c6_distance_bars_rejects_six :
    respToString RespClass.DistanceBars
        (fmSet (classDefaults RespClass.DistanceBars) "value" (VInt 6))
      = Except.error "Value for DistanceBars is not in range 0..6"
    ∧ (∀ n : Int, 0 ≤ n → n < 6 →
        respToString RespClass.DistanceBars
            (fmSet (classDefaults RespClass.DistanceBars) "value" (VInt n))
          = Except.ok (String.mk (List.replicate n.toNat '|') ++ "#"))
    ∧ (∀ n : Int, ¬ (0 ≤ n ∧ n < 6) →
        respToString RespClass.DistanceBars
            (fmSet (classDefaults RespClass.DistanceBars) "value" (VInt n))
          = Except.error "Value for DistanceBars is not in range 0..6") := by
  refine ⟨by decide, ?_, ?_⟩
  · intro n h0 h6
    show respToString RespClass.DistanceBars
      [("value", VInt n), ("suffix", VStr ""), ("new_line", VBool false)] = _
    show (do
      let v ← format_value RespClass.DistanceBars
        [("value", VInt n), ("suffix", VStr ""), ("new_line", VBool false)]
      pure (v ++ "" ++ "")) = _
    have hfv : format_value RespClass.DistanceBars
        [("value", VInt n), ("suffix", VStr ""), ("new_line", VBool false)]
        = Except.ok (String.mk (List.replicate n.toNat '|') ++ "#") := by
      show (if 0 ≤ n ∧ n < 6 then
          Except.ok (String.mk (List.replicate n.toNat '|') ++ "#")
        else Except.error "Value for DistanceBars is not in range 0..6") = _
      rw [if_pos ⟨h0, h6⟩]
    rw [hfv]
    show Except.ok (String.mk (List.replicate n.toNat '|') ++ "#" ++ "" ++ "") = _
    simp
  · intro n h
    show respToString RespClass.DistanceBars
      [("value", VInt n), ("suffix", VStr ""), ("new_line", VBool false)] = _
    show (do
      let v ← format_value RespClass.DistanceBars
        [("value", VInt n), ("suffix", VStr ""), ("new_line", VBool false)]
      pure (v ++ "" ++ "")) = _
    have hfv : format_value RespClass.DistanceBars
        [("value", VInt n), ("suffix", VStr ""), ("new_line", VBool false)]
        = Except.error "Value for DistanceBars is not in range 0..6" := by
      show (if 0 ≤ n ∧ n < 6 then
          Except.ok (String.mk (List.replicate n.toNat '|') ++ "#")
        else Except.error "Value for DistanceBars is not in range 0..6") = _
      rw [if_neg h]
    rw [hfv]
    rfl

/-- C7 (amended): an input frame whose payload exceeds `maxlen` always
leaves the parser in IDLE with an empty buffer; it emits no command
provided none of the payload bytes past position `maxlen + 1` (the bytes
the reset parser sees in IDLE) is `:`, ACK or EOT — a later `:` reopens a
frame inside the overlong payload, which the final `#` then emits. -/
theorem c7_overlong_frame_dropped (ml : Nat) (payload : List Char)
    (hnh : '#' ∉ payload) (hlen : ml < payload.length) :
    ((feed (parserInit ml) (':' :: payload ++ ['#'])).state = PState.IDLE
      ∧ (feed (parserInit ml) (':' :: payload ++ ['#'])).buffer = [])
    ∧ ((∀ c ∈ payload.drop (ml + 1),
          c ≠ ':' ∧ c ≠ Char.ofNat 6 ∧ c ≠ Char.ofNat 4)
        → (feed (parserInit ml) (':' :: payload ++ ['#'])).output = []) := by
  constructor
  · have hsplit : (':' :: payload ++ ['#']) = (':' :: payload) ++ ['#'] := by simp
    rw [hsplit, feed_append, feed_single]
    exact hash_resets _ (bufInv_feed _ _ (fun _ => rfl))
  · intro hrest
    obtain ⟨c0, rest, hdrop⟩ : ∃ c0 rest, payload.drop ml = c0 :: rest := by
      cases hd : payload.drop ml with
      | nil =>
        exfalso
        have hl0 := congrArg List.length hd
        simp only [List.length_drop, List.length_nil] at hl0
        omega
      | cons a b => exact ⟨a, b, rfl⟩
    have htake_len : (payload.take ml).length = ml := by
      rw [List.length_take, Nat.min_eq_left (Nat.le_of_lt hlen)]
    have htake_nh : '#' ∉ payload.take ml :=
      fun hmem => hnh (List.take_subset _ _ hmem)
    have hcolon : feed_one (parserInit ml) ':' = ⟨PState.PARSING, [], [], ml⟩ := by
      simp [feed_one, parserInit,
        show (':' : Char) ≠ Char.ofNat 6 from by decide,
        show (':' : Char) ≠ Char.ofNat 4 from by decide]
    have hfill : feed ⟨PState.PARSING, [], [], ml⟩ (payload.take ml)
        = ⟨PState.PARSING, payload.take ml, [], ml⟩ := by
      have := parsing_fill ml [] [] (payload.take ml) htake_nh (by simp [htake_len])
      simpa using this
    have hc0_mem : c0 ∈ payload := by
      have hm : c0 ∈ payload.drop ml := by
        rw [hdrop]
        exact List.mem_cons_self _ _
      exact List.drop_subset _ _ hm
    have hc0 : c0 ≠ '#' := fun h => hnh (h ▸ hc0_mem)
    have hover : feed_one ⟨PState.PARSING, payload.take ml, [], ml⟩ c0
        = ⟨PState.IDLE, [], [], ml⟩ :=
      parsing_overflow ml [] (payload.take ml) c0 hc0 (by rw [htake_len]; omega)
    have hrest_eq : rest = payload.drop (ml + 1) := by
      have h1 : (payload.drop ml).drop 1 = payload.drop (ml + 1) := List.drop_drop 1 ml payload
      rw [hdrop] at h1
      simpa using h1
    have hskip : feed ⟨PState.IDLE, [], ([] : List Command), ml⟩ rest
        = ⟨PState.IDLE, [], [], ml⟩ :=
      idle_skip ml [] rest (fun c hc => hrest c (by rw [← hrest_eq]; exact hc))
    have hfinal : feed_one ⟨PState.IDLE, [], ([] : List Command), ml⟩ '#'
        = ⟨PState.IDLE, [], [], ml⟩ := by
      simp [feed_one,
        show ('#' : Char) ≠ Char.ofNat 6 from by decide,
        show ('#' : Char) ≠ Char.ofNat 4 from by decide,
        show ('#' : Char) ≠ ':' from by decide]
    have hpayload : payload = payload.take ml ++ (c0 :: rest) := by
      conv_lhs => rw [← List.take_append_drop ml payload]
      rw [hdrop]
    have hfeed : feed (parserInit ml) (':' :: payload ++ ['#'])
        = ⟨PState.IDLE, [], [], ml⟩ := by
      calc feed (parserInit ml) (':' :: payload ++ ['#'])
          = feed (feed_one (parserInit ml) ':') (payload ++ ['#']) := rfl
        _ = feed ⟨PState.PARSING, [], [], ml⟩ (payload ++ ['#']) := by rw [hcolon]
        _ = feed ⟨PState.PARSING, [], [], ml⟩
              (payload.take ml ++ (c0 :: (rest ++ ['#']))) := by
            conv_lhs => rw [hpayload]
            simp
        _ = feed (feed ⟨PState.PARSING, [], [], ml⟩ (payload.take ml))
              (c0 :: (rest ++ ['#'])) := feed_append _ _ _
        _ = feed ⟨PState.PARSING, payload.take ml, [], ml⟩ (c0 :: (rest ++ ['#'])) := by
            rw [hfill]
        _ = feed (feed_one ⟨PState.PARSING, payload.take ml, [], ml⟩ c0)
              (rest ++ ['#']) := rfl
        _ = feed ⟨PState.IDLE, [], [], ml⟩ (rest ++ ['#']) := by rw [hover]
        _ = feed (feed ⟨PState.IDLE, [], [], ml⟩ rest) ['#'] := feed_append _ _ _
        _ = feed_one ⟨PState.IDLE, [], [], ml⟩ '#' := by rw [hskip, feed_single]
        _ = ⟨PState.IDLE, [], [], ml⟩ := hfinal
    rw [hfeed]

/-- C7 (counterexample): the overlong frame whose 34-byte payload is 33
letters followed by `:` is NOT dropped silently — after the overflow reset
the parser is back in IDLE, so the payload's trailing `:` reopens a frame
and the closing `#` emits an (unknown) command for it. -/
theorem c7_counterexample_colon_after_overflow :
    ('#' ∉ (List.replicate 33 'a' ++ [':']))
    ∧ 32 < (List.replicate 33 'a' ++ [':']).length
    ∧ (feed (parserInit 32) (':' :: (List.replicate 33 'a' ++ [':']) ++ ['#'])).output
        = [{ id := CmdId.UnknownCommand, fields := [("value", VStr "")] }] := by
  refine ⟨by decide, by decide, by decide⟩

/-- C7 (witness). -/
theorem c7_overlong_frame_dropped_witness :
    (feed (parserInit 32) (':' :: List.replicate 33 'b' ++ ['#'])).state = PState.IDLE
    ∧ (feed (parserInit 32) (':' :: List.replicate 33 'b' ++ ['#'])).buffer = []
    ∧ (feed (parserInit 32) (':' :: List.replicate 33 'b' ++ ['#'])).output = [] :=
  have h := c7_overlong_frame_dropped 32 (List.replicate 33 'b') (by decide) (by decide)
  ⟨h.1.1, h.1.2, h.2 (by decide)⟩

/-- C8: `\x06` and `\x04` are decoded as ACK/EOT commands only in the
IDLE state — in IDLE each immediately emits its command; inside an
incomplete frame (PARSING) feeding either byte never emits anything: the
output is untouched and, while the buffer has room, the byte is appended
as an ordinary payload byte. -/
theorem c8_ack_eot_decoded_only_in_idle (ml : Nat) (buf : List Char)
    (out : List Command) :
    (feed_one ⟨PState.IDLE, buf, out, ml⟩ (Char.ofNat 6)
        = ⟨PState.IDLE, buf, cmdFromData CmdId.ACK [] :: out, ml⟩)
    ∧ (feed_one ⟨PState.IDLE, buf, out, ml⟩ (Char.ofNat 4)
        = ⟨PState.IDLE, buf, cmdFromData CmdId.EOT [] :: out, ml⟩)
    ∧ ((feed_one ⟨PState.PARSING, buf, out, ml⟩ (Char.ofNat 6)).output = out)
    ∧ ((feed_one ⟨PState.PARSING, buf, out, ml⟩ (Char.ofNat 4)).output = out)
    ∧ (buf.length < ml →
        (feed_one ⟨PState.PARSING, buf, out, ml⟩ (Char.ofNat 6)).buffer
            = buf ++ [Char.ofNat 6]
        ∧ (feed_one ⟨PState.PARSING, buf, out, ml⟩ (Char.ofNat 4)).buffer
            = buf ++ [Char.ofNat 4]) := by
  refine ⟨?_, ?_, ?_, ?_, ?_⟩
  · simp [feed_one]
  · simp [feed_one, show Char.ofNat 4 ≠ Char.ofNat 6 from by decide]
  · by_cases h : buf.length < ml <;>
      simp [feed_one, h, show Char.ofNat 6 ≠ '#' from by decide]
  · by_cases h : buf.length < ml <;>
      simp [feed_one, h, show Char.ofNat 4 ≠ '#' from by decide]
  · intro h
    constructor <;>
      simp [feed_one, h, show Char.ofNat 6 ≠ '#' from by decide,
        show Char.ofNat 4 ≠ '#' from by decide]

/-- C8 (witness). -/
theorem c8_ack_eot_decoded_only_in_idle_witness :
    (feed_one ⟨PState.PARSING, ['a'], [], 32⟩ (Char.ofNat 6)).output = []
    ∧ (feed_one ⟨PState.PARSING, ['a'], [], 32⟩ (Char.ofNat 6)).buffer
        = ['a', Char.ofNat 6] :=
  have h := c8_ack_eot_decoded_only_in_idle 32 ['a'] []
  ⟨h.2.2.1, (h.2.2.2.2 (by decide)).1⟩

/-- C9: feeding any sequence of well-formed frames (with ACK/EOT bytes
interleaved) to one parser, then draining the output deque from the end
opposite insertion — `output.pop()`, i.e. the reverse of the
`appendleft` order, exactly as the dispatcher drains it — yields the
decoded commands in the order their closing bytes were observed, ACK and
EOT in their positions (FIFO). -/
theorem c9_drain_is_fifo (ml : Nat) (msgs : List Msg)
    (hwf : ∀ m ∈ msgs, wfMsg ml m) :
    (feed (parserInit ml) (msgs.flatMap renderMsg)).output.reverse
      = msgs.map decodeMsg := by
  have h : feed (parserInit ml) (msgs.flatMap renderMsg)
      = ⟨PState.IDLE, [], (msgs.map decodeMsg).reverse ++ [], ml⟩ :=
    feed_msgStream ml msgs [] hwf
  rw [h]
  simp

/-- C9 (witness). -/
theorem c9_drain_is_fifo_witness :
    (feed (parserInit 32)
        ([Msg.frame "GR".data, Msg.ack, Msg.frame "Sd-12:30:00".data].flatMap
          renderMsg)).output.reverse
      = [Msg.frame "GR".data, Msg.ack, Msg.frame "Sd-12:30:00".data].map decodeMsg :=
  c9_drain_is_fifo 32 [Msg.frame "GR".data, Msg.ack, Msg.frame "Sd-12:30:00".data]
    (by decide)

/-- C10: ToggleTimeFormat (`H`), HighPrecisionToggle (`P`) and
PrecisionPositionToggle (`U`) each serialize to the fixed store payload
`value = True`; committing any of them to any store state sets its flag
(`mount.clock_format_24h` resp. `high_precision_enabled`) to `True`, and
committing the same command again still leaves `True` — the previous flag
value is never restored. -/
theorem c10_toggles_always_write_true (s : Store) :
    serializeCmd (cmdFromData CmdId.ToggleTimeFormat []) = [("value", VBool true)]
    ∧ serializeCmd (cmdFromData CmdId.HighPrecisionToggle []) = [("value", VBool true)]
    ∧ serializeCmd (cmdFromData CmdId.PrecisionPositionToggle []) = [("value", VBool true)]
    ∧ fmGet (storeGet (commit_command s (cmdFromData CmdId.ToggleTimeFormat []))
        "mount.clock_format_24h") "value" = some (VBool true)
    ∧ fmGet (storeGet
        (commit_command (commit_command s (cmdFromData CmdId.ToggleTimeFormat []))
          (cmdFromData CmdId.ToggleTimeFormat []))
        "mount.clock_format_24h") "value" = some (VBool true)
    ∧ fmGet (storeGet (commit_command s (cmdFromData CmdId.HighPrecisionToggle []))
        "high_precision_enabled") "value" = some (VBool true)
    ∧ fmGet (storeGet
        (commit_command (commit_command s (cmdFromData CmdId.HighPrecisionToggle []))
          (cmdFromData CmdId.HighPrecisionToggle []))
        "high_precision_enabled") "value" = some (VBool true)
    ∧ fmGet (storeGet (commit_command s (cmdFromData CmdId.PrecisionPositionToggle []))
        "high_precision_enabled") "value" = some (VBool true)
    ∧ fmGet (storeGet
        (commit_command (commit_command s (cmdFromData CmdId.PrecisionPositionToggle []))
          (cmdFromData CmdId.PrecisionPositionToggle []))
        "high_precision_enabled") "value" = some (VBool true) := by
  have hH : ∀ s' : Store,
      fmGet (storeGet (commit_command s' (cmdFromData CmdId.ToggleTimeFormat []))
        "mount.clock_format_24h") "value" = some (VBool true) := by
    intro s'
    rw [storeGet_commit s' _ _ (by decide)]
    show fmGet (fmSet (storeGet s' "mount.clock_format_24h") "value" (VBool true))
      "value" = some (VBool true)
    exact fmGet_fmSet_self _ _ _
  have hP : ∀ s' : Store,
      fmGet (storeGet (commit_command s' (cmdFromData CmdId.HighPrecisionToggle []))
        "high_precision_enabled") "value" = some (VBool true) := by
    intro s'
    rw [storeGet_commit s' _ _ (by decide)]
    show fmGet (fmSet (storeGet s' "high_precision_enabled") "value" (VBool true))
      "value" = some (VBool true)
    exact fmGet_fmSet_self _ _ _
  have hU : ∀ s' : Store,
      fmGet (storeGet (commit_command s' (cmdFromData CmdId.PrecisionPositionToggle []))
        "high_precision_enabled") "value" = some (VBool true) := by
    intro s'
    rw [storeGet_commit s' _ _ (by decide)]
    show fmGet (fmSet (storeGet s' "high_precision_enabled") "value" (VBool true))
      "value" = some (VBool true)
    exact fmGet_fmSet_self _ _ _
  exact ⟨by decide, by decide, by decide, hH s, hH _, hP s, hP _, hU s, hU _⟩

/-- C3: for a setter whose store path resolves to `p` and a getter whose
load path (falling back to its store path) resolves to the same `p`,
committing the setter and then filling the getter's response attributes
copies every key of the just-written field-map, with the just-written
values, onto the response (in a store whose field-map at `p` has no
duplicate keys, which Python dicts guarantee, and for the duplicate-free
field-maps `serialize` produces). -/
theorem c3_commit_then_fill_roundtrip (s : Store) (setter getter : Command)
    (p : String) (attrs : FieldMap) (k : String) (v : Value)
    (hs : get_store_path setter = some p)
    (hl : get_load_path getter = some p)
    (hw : ((storeGet s p).map Prod.fst).Nodup)
    (hnd : ((serializeCmd setter).map Prod.fst).Nodup)
    (hk : fmGet (serializeCmd setter) k = some v) :
    fmGet (fill_response (commit_command s setter) getter attrs) k = some v := by
  have hc := storeGet_commit s setter p hs
  unfold fill_response
  rw [hl]
  show fmGet (fmUpdate attrs (storeGet (commit_command s setter) p)) k = some v
  rw [hc]
  exact fmGet_fmUpdate_mem _ _ _ _
    (nodup_keys_fmUpdate _ _ hw)
    (fmGet_fmUpdate_mem _ _ _ _ hnd hk)

/-- C3 (witness): the `Sd` setter and the `Gd` getter share the path
`mount.target.declination` on the default-seeded store. -/
theorem c3_commit_then_fill_roundtrip_witness :
    fmGet (fill_response (commit_command defaultStore (lxDecode "Sd-12:30:00"))
      (lxDecode "Gd") []) "degrees" = some (VInt (-12)) :=
  c3_commit_then_fill_roundtrip defaultStore (lxDecode "Sd-12:30:00") (lxDecode "Gd")
    "mount.target.declination" [] "degrees" (VInt (-12))
    (by decide) (by decide) (by decide) (by decide) (by decide)

/-- C6 (witness). -/
theorem c6_distance_bars_rejects_six_witness :
    respToString RespClass.DistanceBars
        (fmSet (classDefaults RespClass.DistanceBars) "value" (VInt 3))
      = Except.ok (String.mk (List.replicate (3 : Int).toNat '|') ++ "#")
    ∧ respToString RespClass.DistanceBars
        (fmSet (classDefaults RespClass.DistanceBars) "value" (VInt 7))
      = Except.error "Value for DistanceBars is not in range 0..6" :=
  ⟨c6_distance_bars_rejects_six.2.1 3 (by decide) (by decide),
   c6_distance_bars_rejects_six.2.2 7 (by decide)⟩

/-- C10 (witness). -/
theorem c10_toggles_always_write_true_witness :
    fmGet (storeGet
        (commit_command defaultStore (cmdFromData CmdId.ToggleTimeFormat []))
        "mount.clock_format_24h") "value" = some (VBool true) :=
  (c10_toggles_always_write_true defaultStore).2.2.2.1
